import Mathlib

/-!
Verification development for the Zisk language engine (src/zisk_repl.py).

The Python source is shallowly embedded: the runtime value universe, the
type system (ZiskTypeSystem), the AST optimizer (ZiskOptimizer), the
tree-walking evaluator (ZiskREPL.execute and its helpers) and the
declaration/scope fragment of the recursive-descent parser (ZiskParser)
are translated into executable Lean definitions, and the frozen claims
are settled as theorems about those definitions.

Conventions used throughout:
* Python `int` is modelled as `Int` (CPython integers are unbounded) and
  Python `float` as `Rat`; no settled claim depends on IEEE-754 rounding,
  only on which arithmetic operation is performed and on zero tests.
* Python dicts are modelled as insertion-ordered association lists with
  in-place update (`assocSet`), matching CPython dict semantics.
* Python lists and object-literal dicts are heap objects referenced by
  address, mirroring CPython reference semantics; the evaluator state
  carries both heaps.
* Exceptions are modelled by an explicit outcome type `Exc`: the ZiskError
  hierarchy, raw host (Python-level) exceptions, and the three
  control-transfer exceptions ReturnException/BreakException/
  ContinueException from src/zisk_repl.py lines 17-26.
-/

namespace Zisk

/-- Numbers as carried by NUMERO literals and produced by arithmetic:
a Python int or a Python float (modelled as an exact rational). -/
inductive PyNum where
  | pint (z : Int)
  | pfloat (q : Rat)
deriving Repr, DecidableEq

/-- Numeric value of a PyNum as a rational (used for promotions and for
Python cross-kind numeric equality such as the `rhs == 0` tests). -/
def PyNum.toRat : PyNum → Rat
  | .pint z => (z : Rat)
  | .pfloat q => q

/-- Python `+` on two numbers: int when both ints, else float promotion. -/
def numAdd : PyNum → PyNum → PyNum
  | .pint a, .pint b => .pint (a + b)
  | a, b => .pfloat (a.toRat + b.toRat)

/-- Python `-` on two numbers. -/
def numSub : PyNum → PyNum → PyNum
  | .pint a, .pint b => .pint (a - b)
  | a, b => .pfloat (a.toRat - b.toRat)

/-- Python `*` on two numbers. -/
def numMul : PyNum → PyNum → PyNum
  | .pint a, .pint b => .pint (a * b)
  | a, b => .pfloat (a.toRat * b.toRat)

/-- Python `/` on two numbers: true division, always a float. The caller
guards the divisor against zero. -/
def numDiv (a b : PyNum) : PyNum := .pfloat (a.toRat / b.toRat)

/-- Python `%` on two numbers: floor-based remainder (the sign follows the
divisor), `Int.fmod` for two ints, `x - y * floor (x / y)` otherwise. -/
def numMod : PyNum → PyNum → PyNum
  | .pint a, .pint b => .pint (Int.fmod a b)
  | a, b =>
      let x := a.toRat
      let y := b.toRat
      .pfloat (x - y * ((⌊x / y⌋ : Int) : Rat))

/-- Python `== 0` on a number (1, 1.0 and True all compare equal to 1). -/
def numIsZero (n : PyNum) : Bool := n.toRat == 0

/-- Python unary minus on a number. -/
def numNeg : PyNum → PyNum
  | .pint z => .pint (-z)
  | .pfloat q => .pfloat (-q)

/-- Runtime values of the interpreter. Lists and object literals are heap
references; `vfunc`/`vclass`/`vinst` stand for the Python callables, the
classes built with `type(...)` and their instances, carrying the names the
type system inspects; `verr` is a ZiskError exception object (as bound to
a catch variable), carrying its Python class name and message; `vtuple`
stands for an opaque Python tuple, producible only by the compound
assignment path that multiplies a scope binding tuple (see
`compoundCombine`), whose contents no later code inspects. -/
inductive Value where
  | vnone
  | vbool (b : Bool)
  | vint (z : Int)
  | vfloat (q : Rat)
  | vstr (s : String)
  | vlist (addr : Nat)
  | vdict (addr : Nat)
  | vfunc (name : String)
  | vclass (name : String)
  | vinst (cls : String)
  | verr (cls : String) (msg : String)
  | vtuple
deriving Repr, DecidableEq

/-- Python `value.__class__.__name__` for each modelled value. -/
def className : Value → String
  | .vnone => "NoneType"
  | .vbool _ => "bool"
  | .vint _ => "int"
  | .vfloat _ => "float"
  | .vstr _ => "str"
  | .vlist _ => "list"
  | .vdict _ => "dict"
  | .vfunc _ => "function"
  | .vclass _ => "type"
  | .vinst c => c
  | .verr c _ => c
  | .vtuple => "tuple"

/-- Python `isinstance (v, int)`: bool is a subclass of int. -/
def isInstInt : Value → Bool
  | .vint _ => true
  | .vbool _ => true
  | _ => false

/-- Python `isinstance (v, (int, float))`, the numeric operand test of the
arithmetic branch (line 2448). -/
def isNumericVal : Value → Bool
  | .vint _ => true
  | .vbool _ => true
  | .vfloat _ => true
  | _ => false

/-- Python `isinstance (v, str)`. -/
def isStrVal : Value → Bool
  | .vstr _ => true
  | _ => false

/-- Numeric content of a value under Python int/float/bool coercion. -/
def toPyNum : Value → Option PyNum
  | .vint z => some (.pint z)
  | .vbool b => some (.pint (if b then 1 else 0))
  | .vfloat q => some (.pfloat q)
  | _ => none

/-- Integer content of a value under Python bool-as-int coercion. -/
def toIntLike : Value → Option Int
  | .vint z => some z
  | .vbool b => some (if b then 1 else 0)
  | _ => none

/-- Value of a PyNum as a runtime value. -/
def numToValue : PyNum → Value
  | .pint z => .vint z
  | .pfloat q => .vfloat q

/-- Python `v == 0` for an arbitrary value: numbers (and bools) compare
numerically, every other kind compares unequal to 0. Used by the
division/modulo zero guards (lines 2382, 2385, 2466, 2469). -/
def pyEqZero (v : Value) : Bool :=
  match toPyNum v with
  | some n => numIsZero n
  | none => false

/-- Python `str (v)` as used for index keys (line 1856/1858) and dict keys.
Ints, strings, bools and None render exactly as in CPython; the rendering
of the remaining kinds is a deterministic stand-in (no settled claim
depends on it). -/
def pyStr : Value → String
  | .vnone => "None"
  | .vbool b => if b then "True" else "False"
  | .vint z => toString z
  | .vfloat q => toString q
  | .vstr s => s
  | .vlist a => "<list#" ++ toString a ++ ">"
  | .vdict a => "<dict#" ++ toString a ++ ">"
  | .vfunc n => "<function " ++ n ++ ">"
  | .vclass n => "<class '" ++ n ++ "'>"
  | .vinst c => "<" ++ c ++ " instance>"
  | .verr c m => "Error en línea 0, columna 0: " ++ m ++ " (" ++ c ++ ")"
  | .vtuple => "<tuple>"

/-- Association-list update with CPython dict semantics: an existing key
keeps its position, a new key is appended. -/
def assocSet {α β : Type} [BEq α] : List (α × β) → α → β → List (α × β)
  | [], k, v => [(k, v)]
  | (k', v') :: rest, k, v =>
      if k' == k then (k, v) :: rest else (k', v') :: assocSet rest k v

/-- Association-list lookup (Python `d.get (k)` / `k in d`). -/
def assocGet {α β : Type} [BEq α] : List (α × β) → α → Option β
  | [], _ => none
  | (k', v') :: rest, k => if k' == k then some v' else assocGet rest k

/-- Exception kinds of the ZiskError hierarchy (lines 7-15 and 2963-2966):
ZiskRuntimeError, ZiskTypeError and the three refined runtime subkinds. -/
inductive ZKind where
  | runtime
  | typeErr
  | attr
  | indexE
  | keyE
deriving Repr, DecidableEq

/-- Python class name of each ZiskError kind (as bound to a catch variable). -/
def ziskClassName : ZKind → String
  | .runtime => "ZiskRuntimeError"
  | .typeErr => "ZiskTypeError"
  | .attr => "ZiskAttributeError"
  | .indexE => "ZiskIndexError"
  | .keyE => "ZiskKeyError"

/-- Exceptions the evaluator can raise: a ZiskError with message and
position, a raw host exception (Python exception name and message) that is
outside the Zisk taxonomy, or one of the three control-transfer
exceptions ReturnException/BreakException/ContinueException. -/
inductive Exc where
  | zisk (k : ZKind) (msg : String) (line col : Nat)
  | py (name msg : String)
  | ret (v : Value)
  | brk
  | cont
deriving Repr, DecidableEq

/-- State of ZiskTypeSystem that the modelled operations consult and
mutate: the class hierarchy (class name to optional superclass name) and
the per-name type annotations, both insertion-ordered dicts.
`method_signatures` is never consulted by the modelled fragment and is
omitted. -/
structure TypeSystem where
  class_hierarchy : List (String × Option String)
  type_annotations : List (String × String)
deriving Repr, DecidableEq

/-- Names of the builtin Zisk types, the keys of `self.type_map`
(lines 950-960) in insertion order. -/
def builtinTypeNames : List String :=
  ["entero", "decimal", "texto", "booleano", "lista", "objeto", "funcion",
   "clase", "nulo"]

/-- Membership of a name in `self.type_map`. -/
def typeMapHas (t : String) : Bool := builtinTypeNames.contains t

/-- Python `isinstance (v, self.type_map [t])` for a builtin type name:
entero is `int` (so bools match), decimal `float`, texto `str`, booleano
`bool`, lista `list`, objeto `dict`, funcion the function type, clase
`type`, nulo `NoneType`. -/
def isinstanceOfBuiltin (v : Value) (t : String) : Bool :=
  if t == "entero" then isInstInt v
  else if t == "decimal" then (match v with | .vfloat _ => true | _ => false)
  else if t == "texto" then isStrVal v
  else if t == "booleano" then (match v with | .vbool _ => true | _ => false)
  else if t == "lista" then (match v with | .vlist _ => true | _ => false)
  else if t == "objeto" then (match v with | .vdict _ => true | _ => false)
  else if t == "funcion" then (match v with | .vfunc _ => true | _ => false)
  else if t == "clase" then (match v with | .vclass _ => true | _ => false)
  else if t == "nulo" then (match v with | .vnone => true | _ => false)
  else false

/-- Python `name in self.class_hierarchy`. -/
def hierHas (ts : TypeSystem) (c : String) : Bool :=
  (assocGet ts.class_hierarchy c).isSome

/-- ZiskTypeSystem.check_type (lines 966-1005). For `nulo` the value must
be None. For a name in the class hierarchy the code accepts the class
object itself by name, then an instance whose runtime class name equals
the expected name; the subsequent `while current_class:` loop re-checks
the same runtime class name once and then executes an unconditional
`break` (line 993), so no ancestor is ever consulted. On fall-through a
builtin name is checked with `isinstance`, and an unmapped name yields
False (line 1003). -/
def check_type (ts : TypeSystem) (v : Value) (expected : String) : Bool :=
  if expected == "nulo" then v == .vnone
  else if hierHas ts expected &&
      ((match v with | .vclass n => n == expected | _ => false) ||
       className v == expected ||
       className v == expected) then
    true
  else if typeMapHas expected then isinstanceOfBuiltin v expected
  else false

/-- ZiskTypeSystem.infer_type (lines 1007-1023): None is `nulo`; a value
whose runtime class name is in the class hierarchy reports that name; the
builtin map is then scanned in insertion order (so True reports `entero`,
since bool is a subclass of int and `entero` comes first); no match gives
`desconocido`. -/
def infer_type (ts : TypeSystem) (v : Value) : String :=
  match v with
  | .vnone => "nulo"
  | _ =>
    if hierHas ts (className v) then className v
    else
      match builtinTypeNames.find? (fun t => isinstanceOfBuiltin v t) with
      | some t => t
      | none => "desconocido"

/-- ZiskTypeSystem.validate_assignment (lines 1025-1052). No expected type
means no check; a None value is permitted against every expected type
(the `pass` at line 1043); a non-None value failing check_type raises
ZiskTypeError with the message built at lines 1048-1051. -/
def validate_assignment (ts : TypeSystem) (ctx : String) (v : Value)
    (expected : Option String) (linea col : Nat) (is_return : Bool) :
    Except Exc Unit :=
  match expected with
  | none => .ok ()
  | some t =>
      if v != .vnone && !check_type ts v t then
        .error (.zisk .typeErr
          ("Tipos incompatibles: no se puede " ++
           (if is_return then "retornar valor" else "asignar valor") ++
           " de tipo '" ++ infer_type ts v ++ "' a '" ++ ctx ++
           "' de tipo '" ++ t ++ "'.") linea col)
      else .ok ()

/-- Arithmetic operators of OPERACION_ARITMETICA nodes: exactly the strings
the multiplicative/additive parser levels consume (lines 529-545). -/
inductive ArithOp where
  | add
  | sub
  | mul
  | div
  | mod
deriving Repr, DecidableEq

/-- Source lexeme of an arithmetic operator. -/
def arithOpStr : ArithOp → String
  | .add => "+"
  | .sub => "-"
  | .mul => "*"
  | .div => "/"
  | .mod => "%"

/-- Logical operators of OPERACION_LOGICA nodes (lines 504-518). -/
inductive LogicOp where
  | land
  | lor
deriving Repr, DecidableEq

/-- Unary operators of OPERACION_UNARIA nodes (lines 547-552). -/
inductive UnOp where
  | neg
  | lnot
deriving Repr, DecidableEq

/-- Assignment operators of ASIGNACION nodes (lines 484-485). -/
inductive AssignOp where
  | assign
  | addA
  | subA
  | mulA
  | divA
  | modA
deriving Repr, DecidableEq

/-- Source lexeme of an assignment operator. -/
def assignOpStr : AssignOp → String
  | .assign => "="
  | .addA => "+="
  | .subA => "-="
  | .mulA => "*="
  | .divA => "/="
  | .modA => "%="

/-- AST nodes of the modelled fragment: the node kinds the settled claims
exercise (literals, identifiers, list and object literals, the four
operation node kinds, index access, assignment, var/const declarations,
return/break/continue, try/catch/finally, blocks and the program root).
Function, class, loop, conditional, call, member-access and import forms
are outside the fragment; no settled claim quantifies over them.
An absent optional block child (the Python `None` stored for a missing
catch or finally block) is encoded by the dedicated marker `nada`;
`execute` maps it to None exactly as line 1867 does for a None node. -/
inductive AST where
  | nada
  | numero (n : PyNum)
  | cadena (s : String)
  | booleano (b : Bool)
  | nulo
  | identificador (name : String)
  | listaLiteral (elems : List AST)
  | objetoLiteral (props : List (String × AST))
  | opAritmetica (op : ArithOp) (l r : AST)
  | opLogica (op : LogicOp) (l r : AST)
  | opUnaria (op : UnOp) (e : AST)
  | accesoIndice (coll idx : AST)
  | asignacion (op : AssignOp) (lhs rhs : AST)
  | declaracionVar (name : String) (tipo : Option String) (val : Option AST)
  | declaracionConst (name : String) (tipo : Option String) (val : Option AST)
  | retorna (val : Option AST) (line col : Nat)
  | brkStmt (line col : Nat)
  | contStmt (line col : Nat)
  | tryCatch (tryB : AST) (errVar : Option String) (catchB finallyB : AST)
  | bloque (stmts : List AST)
  | programa (stmts : List AST)
deriving Repr

/-- Source tag string of a node (the first tuple component in the Python
AST representation). -/
def nodeTypeName : AST → String
  | .nada => "NADA"
  | .numero _ => "NUMERO"
  | .cadena _ => "CADENA"
  | .booleano _ => "BOOLEANO"
  | .nulo => "NULO"
  | .identificador _ => "IDENTIFICADOR"
  | .listaLiteral _ => "LISTA_LITERAL"
  | .objetoLiteral _ => "OBJETO_LITERAL"
  | .opAritmetica _ _ _ => "OPERACION_ARITMETICA"
  | .opLogica _ _ _ => "OPERACION_LOGICA"
  | .opUnaria _ _ => "OPERACION_UNARIA"
  | .accesoIndice _ _ => "ACCESO_INDICE"
  | .asignacion _ _ _ => "ASIGNACION"
  | .declaracionVar _ _ _ => "DECLARACION_VAR"
  | .declaracionConst _ _ _ => "DECLARACION_CONST"
  | .retorna _ _ _ => "RETORNA"
  | .brkStmt _ _ => "BREAK"
  | .contStmt _ _ => "CONTINUA"
  | .tryCatch _ _ _ _ => "TRY_CATCH"
  | .bloque _ => "BLOQUE"
  | .programa _ => "PROGRAMA"

/-- Runtime binding of one name in one scope frame: the tuple
`(value, {'is_const': ..., 'type': ...})` stored by `_declare_variable`
(line 1781) and by the assignment branch (line 2399). The stored type is
always a nonempty string (an explicit annotation or an inferred name), so
it is modelled as `String`. -/
structure Binding where
  val : Value
  is_const : Bool
  vtype : String
deriving Repr, DecidableEq

/-- Scope frame: a Python dict from names to bindings. -/
abbrev Frame := List (String × Binding)

/-- Mutable state of one ZiskREPL instance (lines 1710-1727): the runtime
scope stack, the two value heaps (CPython object identity for lists and
dicts), the function/class/module tables, the two nesting counters and
the shared type system. `scopes` is kept innermost-first; the source
appends frames at the end and iterates with `reversed(...)`, so
first-match lookup order is identical. -/
structure EvalState where
  scopes : List Frame
  listHeap : List (List Value)
  dictHeap : List (List (Value × Value))
  functions : List (String × Value)
  classes : List (String × Value)
  modules : List (String × Value)
  is_in_function : Nat
  is_in_loop : Nat
  tsys : TypeSystem
deriving Repr, DecidableEq

/-- Python truthiness (`if v:` / `not v`) of a runtime value; empty lists
and dicts are falsy, so the heaps are consulted. -/
def truthy (σ : EvalState) : Value → Bool
  | .vnone => false
  | .vbool b => b
  | .vint z => z != 0
  | .vfloat q => q != 0
  | .vstr s => s != ""
  | .vlist a => (σ.listHeap.getD a []).length != 0
  | .vdict a => (σ.dictHeap.getD a []).length != 0
  | _ => true

/-- ZiskREPL.enter_scope (line 1764). -/
def enterScope (σ : EvalState) : EvalState := { σ with scopes := [] :: σ.scopes }

/-- ZiskREPL.exit_scope (lines 1765-1766): pops only while more than one
frame remains. -/
def exitScope (σ : EvalState) : EvalState :=
  if σ.scopes.length > 1 then { σ with scopes := σ.scopes.tail } else σ

/-- Innermost-first lookup of a name across the scope stack. -/
def lookupScopes : List Frame → String → Option Binding
  | [], _ => none
  | f :: rest, name =>
      match assocGet f name with
      | some b => some b
      | none => lookupScopes rest name

/-- ZiskREPL._declare_variable (lines 1770-1784): reject overwriting a
const binding of the same frame, reject shadowing a var of the same frame
with a const, validate an explicit type, store the binding with the
explicit or inferred type, and record the annotation in the type system. -/
def declareVariable (σ : EvalState) (name : String) (value : Value)
    (tipo : Option String) (is_const : Bool) (linea col : Nat) :
    Except Exc EvalState :=
  let scope := σ.scopes.headD []
  let existing := assocGet scope name
  if (match existing with | some b => b.is_const | none => false) then
    .error (.zisk .runtime ("No se puede reasignar la constante '" ++ name ++ "'.") linea col)
  else if existing.isSome && is_const then
    .error (.zisk .runtime ("'" ++ name ++ "' ya está declarada como variable, no puede ser redeclarada como constante.") linea col)
  else
    match validate_assignment σ.tsys name value tipo linea col false with
    | .error e => .error e
    | .ok _ =>
        let vt := match tipo with
          | some t => t
          | none => infer_type σ.tsys value
        let newScopes := σ.scopes.set 0 (assocSet scope name ⟨value, is_const, vt⟩)
        let σ' := { σ with scopes := newScopes }
        match tipo with
        | some t =>
            let ts' := { σ'.tsys with type_annotations := assocSet σ'.tsys.type_annotations name t }
            .ok { σ' with tsys := ts' }
        | none => .ok σ'

/-- ZiskREPL._get_variable_value (lines 1801-1822): scopes innermost
first, then the function, class and module tables, else a runtime error. -/
def getVariableValue (σ : EvalState) (name : String) (linea col : Nat) :
    Except Exc Value :=
  match lookupScopes σ.scopes name with
  | some b => .ok b.val
  | none =>
    match assocGet σ.functions name with
    | some v => .ok v
    | none =>
      match assocGet σ.classes name with
      | some v => .ok v
      | none =>
        match assocGet σ.modules name with
        | some v => .ok v
        | none => .error (.zisk .runtime ("Nombre '" ++ name ++ "' no definido.") linea col)

/-- Assignment target location, the value returned by
ZiskREPL._get_lvalue_location: a scope frame with a name, a list element
(the source keeps `str(index)`; the original value is kept here and
`intOfKey` replays the `int(str(...))` conversion), or a dict with a
string key. -/
inductive Loc where
  | scopeVar (frameIdx : Nat) (name : String)
  | listElem (addr : Nat) (idxVal : Value)
  | dictElem (addr : Nat) (key : String)
deriving Repr, DecidableEq

/-- Index of the innermost frame containing a name. -/
def findFrameIdx (σ : EvalState) (name : String) : Option Nat :=
  σ.scopes.findIdx? (fun f => (assocGet f name).isSome)

/-- Python `int(key_or_name)` where the key is `str(index_val)` for an
index that passed `isinstance(index_val, int)`: an int round-trips
(`int(str(n)) = n`), a bool renders as "True"/"False" and int() raises
ValueError; other kinds cannot reach this conversion. -/
def intOfKey : Value → Except Exc Int
  | .vint z => .ok z
  | _ => .error (.py "ValueError" "invalid literal for int() with base 10")

/-- Heap allocation of a fresh list object. -/
def allocList (σ : EvalState) (xs : List Value) : Except Exc Value × EvalState :=
  (.ok (.vlist σ.listHeap.length), { σ with listHeap := σ.listHeap ++ [xs] })

/-- Heap allocation of a fresh dict object. -/
def allocDict (σ : EvalState) (ps : List (Value × Value)) :
    Except Exc Value × EvalState :=
  (.ok (.vdict σ.dictHeap.length), { σ with dictHeap := σ.dictHeap ++ [ps] })

/-- Python `s * k` (string repetition; nonpositive counts give ""). -/
def strRepeat (s : String) (k : Int) : String :=
  String.join (List.replicate k.toNat s)

/-- Python `xs * k` (list repetition). -/
def listRepeat (xs : List Value) (k : Int) : List Value :=
  (List.replicate k.toNat xs).flatten

/-- Raw Python `+` on two runtime values: numeric promotion, string
concatenation, list concatenation (allocating a fresh list), else a host
TypeError. -/
def pyAddRaw (σ : EvalState) (a b : Value) : Except Exc Value × EvalState :=
  match toPyNum a, toPyNum b with
  | some x, some y => (.ok (numToValue (numAdd x y)), σ)
  | _, _ =>
    match a, b with
    | .vstr s, .vstr t => (.ok (.vstr (s ++ t)), σ)
    | .vlist i, .vlist j =>
        allocList σ ((σ.listHeap.getD i []) ++ (σ.listHeap.getD j []))
    | _, _ =>
        (.error (.py "TypeError"
          ("unsupported operand type(s) for +: '" ++ className a ++ "' and '" ++
           className b ++ "'")), σ)

/-- Raw Python `*` on two runtime values: numeric promotion, string or
list repetition by an int (bools coerce), else a host TypeError. -/
def pyMulRaw (σ : EvalState) (a b : Value) : Except Exc Value × EvalState :=
  match toPyNum a, toPyNum b with
  | some x, some y => (.ok (numToValue (numMul x y)), σ)
  | _, _ =>
    match a, b with
    | .vstr s, _ =>
        match toIntLike b with
        | some k => (.ok (.vstr (strRepeat s k)), σ)
        | none => (.error (.py "TypeError" ("can't multiply sequence by non-int of type '" ++ className b ++ "'")), σ)
    | _, .vstr t =>
        match toIntLike a with
        | some k => (.ok (.vstr (strRepeat t k)), σ)
        | none => (.error (.py "TypeError" ("can't multiply sequence by non-int of type '" ++ className a ++ "'")), σ)
    | .vlist i, _ =>
        match toIntLike b with
        | some k => allocList σ (listRepeat (σ.listHeap.getD i []) k)
        | none => (.error (.py "TypeError" ("can't multiply sequence by non-int of type '" ++ className b ++ "'")), σ)
    | _, .vlist j =>
        match toIntLike a with
        | some k => allocList σ (listRepeat (σ.listHeap.getD j []) k)
        | none => (.error (.py "TypeError" ("can't multiply sequence by non-int of type '" ++ className a ++ "'")), σ)
    | _, _ =>
        (.error (.py "TypeError"
          ("unsupported operand type(s) for *: '" ++ className a ++ "' and '" ++
           className b ++ "'")), σ)

/-- Raw Python `-` on two runtime values. -/
def pySubRaw (a b : Value) : Except Exc Value :=
  match toPyNum a, toPyNum b with
  | some x, some y => .ok (numToValue (numSub x y))
  | _, _ =>
      .error (.py "TypeError"
        ("unsupported operand type(s) for -: '" ++ className a ++ "' and '" ++
         className b ++ "'"))

/-- Raw Python `/` on two runtime values; every caller guards the divisor
against zero first. -/
def pyDivRaw (a b : Value) : Except Exc Value :=
  match toPyNum a, toPyNum b with
  | some x, some y => .ok (numToValue (numDiv x y))
  | _, _ =>
      .error (.py "TypeError"
        ("unsupported operand type(s) for /: '" ++ className a ++ "' and '" ++
         className b ++ "'"))

/-- Raw Python `%` on two runtime values; every caller guards the divisor
against zero first. A string left operand triggers host printf-style
formatting, which raises TypeError when the string has no conversion
specifier; specifier-bearing format strings are not modelled and no
settled claim reaches them. -/
def pyModRaw (a b : Value) : Except Exc Value :=
  match toPyNum a, toPyNum b with
  | some x, some y => .ok (numToValue (numMod x y))
  | _, _ =>
    match a with
    | .vstr _ => .error (.py "TypeError" "not all arguments converted during string formatting")
    | _ =>
        .error (.py "TypeError"
          ("unsupported operand type(s) for %: '" ++ className a ++ "' and '" ++
           className b ++ "'"))

/-- Current value of an assignment target as read by the compound branch
(lines 2358-2370): either a plain runtime value or, for a scope variable,
the binding tuple itself — the scope frame is a Python dict, so the
`isinstance(lvalue_container, dict)` arm at line 2366 matches it and
`.get` returns the `(value, meta)` tuple, not the value. -/
inductive CurVal where
  | ofValue (v : Value)
  | ofBinding (b : Binding)
deriving Repr, DecidableEq

/-- Compound-assignment read of the current value (lines 2358-2373), for
an operator other than `=`: a list element is read with bounds check (an
out-of-range index raises before any write), a scope variable yields its
binding tuple, a dict key yields its value or None; a resulting None
raises the missing-initial-value error of line 2373. `opS` and `lhsS`
stand in for the interpolated operator and target node of that message. -/
def readCurrent (σ : EvalState) (loc : Loc) (opS lhsS : String) :
    Except Exc CurVal :=
  let read : Except Exc CurVal :=
    match loc with
    | .listElem addr idxVal =>
        match intOfKey idxVal with
        | .error e => .error e
        | .ok idx =>
            let xs := σ.listHeap.getD addr []
            if 0 ≤ idx && idx < (xs.length : Int) then
              .ok (.ofValue (xs.getD idx.toNat .vnone))
            else
              .error (.zisk .runtime
                ("Índice " ++ toString idx ++ " fuera de rango para la lista.") 0 0)
    | .scopeVar i name =>
        match assocGet (σ.scopes.getD i []) name with
        | some b => .ok (.ofBinding b)
        | none => .ok (.ofValue .vnone)
    | .dictElem addr key =>
        .ok (.ofValue ((assocGet (σ.dictHeap.getD addr []) (.vstr key)).getD .vnone))
  match read with
  | .error e => .error e
  | .ok cur =>
      if cur == .ofValue .vnone then
        .error (.zisk .runtime
          ("Variable/propiedad '" ++ lhsS ++ "' no tiene valor inicial para operador '" ++
           opS ++ "'.") 0 0)
      else .ok cur

/-- Compound-assignment combination (lines 2377-2386): `=` keeps the
right-hand value; the zero guards of `/=` and `%=` raise a
ZiskRuntimeError before the division and before any write; the other
operators apply the raw host operator — on a scope variable the current
value is the binding tuple, so `+=`, `-=`, `/=`, `%=` raise a host
TypeError while `*=` by an int performs tuple repetition, producing an
opaque tuple value. -/
def compoundCombine (σ : EvalState) (op : AssignOp) (cur : CurVal) (rhs : Value) :
    Except Exc Value × EvalState :=
  match op with
  | .assign => (.ok rhs, σ)
  | .addA =>
      match cur with
      | .ofValue v => pyAddRaw σ v rhs
      | .ofBinding _ =>
          (.error (.py "TypeError"
            ("can only concatenate tuple (not \"" ++ className rhs ++ "\") to tuple")), σ)
  | .subA =>
      match cur with
      | .ofValue v => (pySubRaw v rhs, σ)
      | .ofBinding _ =>
          (.error (.py "TypeError"
            ("unsupported operand type(s) for -: 'tuple' and '" ++ className rhs ++ "'")), σ)
  | .mulA =>
      match cur with
      | .ofValue v => pyMulRaw σ v rhs
      | .ofBinding _ =>
          match toIntLike rhs with
          | some _ => (.ok .vtuple, σ)
          | none =>
              (.error (.py "TypeError"
                ("can't multiply sequence by non-int of type '" ++ className rhs ++ "'")), σ)
  | .divA =>
      if pyEqZero rhs then
        (.error (.zisk .runtime "División por cero en asignación." 0 0), σ)
      else
        match cur with
        | .ofValue v => (pyDivRaw v rhs, σ)
        | .ofBinding _ =>
            (.error (.py "TypeError"
              ("unsupported operand type(s) for /: 'tuple' and '" ++ className rhs ++ "'")), σ)
  | .modA =>
      if pyEqZero rhs then
        (.error (.zisk .runtime "Módulo por cero en asignación." 0 0), σ)
      else
        match cur with
        | .ofValue v => (pyModRaw v rhs, σ)
        | .ofBinding _ =>
            (.error (.py "TypeError"
              ("unsupported operand type(s) for %: 'tuple' and '" ++ className rhs ++ "'")), σ)

/-- Innermost declared-or-inferred type of a name (the loop at
lines 2392-2395). -/
def findTypeInScopes (σ : EvalState) (name : String) : Option String :=
  match lookupScopes σ.scopes name with
  | some b => some b.vtype
  | none => none

/-- Frame update used by the identifier branch of the assignment write
(line 2399): the binding is overwritten with `is_const: False` and the
original (or freshly inferred) type. -/
def writeVar (σ : EvalState) (i : Nat) (name : String) (v : Value)
    (ot : Option String) : EvalState :=
  let frame := σ.scopes.getD i []
  let newType := match ot with
    | some t => t
    | none => infer_type σ.tsys v
  { σ with scopes := σ.scopes.set i (assocSet frame name ⟨v, false, newType⟩) }

/-- Assignment write (lines 2388-2428). A scope-variable location (the
source tests `lhs_node_desc[0] == 'IDENTIFICADOR'`, which holds exactly
when the location is a scope variable) validates the value against the
stored type and overwrites the binding with `is_const: False` and no
const check; a list element replaces in `[0, len)`, appends at `len`
under plain `=`, and raises otherwise; a dict key is set with CPython
dict semantics. -/
def assignWrite (σ : EvalState) (loc : Loc) (op : AssignOp) (finalVal : Value) :
    Except Exc Value × EvalState :=
  match loc with
  | .scopeVar i name =>
      match findTypeInScopes σ name with
      | some ot =>
          match validate_assignment σ.tsys name finalVal (some ot) 0 0 false with
          | .error e => (.error e, σ)
          | .ok _ => (.ok finalVal, writeVar σ i name finalVal (some ot))
      | none => (.ok finalVal, writeVar σ i name finalVal none)
  | .listElem addr idxVal =>
      match intOfKey idxVal with
      | .error e => (.error e, σ)
      | .ok idx =>
          let xs := σ.listHeap.getD addr []
          if 0 ≤ idx && idx < (xs.length : Int) then
            (.ok finalVal, { σ with listHeap := σ.listHeap.set addr (xs.set idx.toNat finalVal) })
          else if idx == (xs.length : Int) && op == .assign then
            (.ok finalVal, { σ with listHeap := σ.listHeap.set addr (xs ++ [finalVal]) })
          else
            (.error (.zisk .runtime
              ("Índice " ++ toString idx ++ " fuera de rango para asignación a lista.") 0 0), σ)
  | .dictElem addr key =>
      let newDict := assocSet (σ.dictHeap.getD addr []) (.vstr key) finalVal
      (.ok finalVal, { σ with dictHeap := σ.dictHeap.set addr newDict })

/-- Arithmetic dispatch of the operation branch (lines 2461-2470): the
division and modulo zero guards raise a catchable ZiskRuntimeError before
the host operation runs. -/
def arithApply (σ : EvalState) (op : ArithOp) (a b : Value) :
    Except Exc Value × EvalState :=
  match op with
  | .add => pyAddRaw σ a b
  | .sub => (pySubRaw a b, σ)
  | .mul => pyMulRaw σ a b
  | .div =>
      if pyEqZero b then (.error (.zisk .runtime "División por cero." 0 0), σ)
      else (pyDivRaw a b, σ)
  | .mod =>
      if pyEqZero b then (.error (.zisk .runtime "Módulo por cero." 0 0), σ)
      else (pyModRaw a b, σ)

/-- Test for the absent-block marker. -/
def isNada : AST → Bool
  | .nada => true
  | _ => false

/-- Single character of a string as a one-character string (Python
`s[i]`). -/
def strCharAt (s : String) (n : Nat) : String :=
  String.mk [s.data.getD n ' ']

mutual

/-- ZiskREPL.execute (lines 1866-2714) restricted to the modelled node
kinds; faithful branch-by-branch translation, in particular: blocks
always push and pop a scope (the pop sits in a `finally`); assignment
evaluates the right-hand side first, then resolves the target, reads the
current value only for compound operators, combines, and writes last;
logical operators short-circuit and otherwise return the right operand
(Python `and`/`or`); try/catch re-raises the three control-transfer
exceptions before the ZiskError handler, binds the error object with
declared type `objeto`, and runs the finally block on every path with its
own outcome taking precedence. -/
def execute : AST → EvalState → Except Exc Value × EvalState
  | .nada, σ => (.ok .vnone, σ)
  | .numero n, σ => (.ok (numToValue n), σ)
  | .cadena s, σ => (.ok (.vstr s), σ)
  | .booleano b, σ => (.ok (.vbool b), σ)
  | .nulo, σ => (.ok .vnone, σ)
  | .identificador name, σ => (getVariableValue σ name 0 0, σ)
  | .listaLiteral elems, σ =>
      match execMany elems σ with
      | (.ok vs, σ₁) => allocList σ₁ vs
      | (.error e, σ₁) => (.error e, σ₁)
  | .objetoLiteral props, σ =>
      match execProps props σ [] with
      | (.ok ps, σ₁) => allocDict σ₁ ps
      | (.error e, σ₁) => (.error e, σ₁)
  | .opAritmetica op l r, σ =>
      match execute l σ with
      | (.error e, σ₁) => (.error e, σ₁)
      | (.ok lv, σ₁) =>
        match execute r σ₁ with
        | (.error e, σ₂) => (.error e, σ₂)
        | (.ok rv, σ₂) =>
            if isNumericVal lv && isNumericVal rv then arithApply σ₂ op lv rv
            else if op == .add && isStrVal lv && isStrVal rv then arithApply σ₂ op lv rv
            else if op == .mul &&
                ((isStrVal lv && isInstInt rv) || (isInstInt lv && isStrVal rv)) then
              arithApply σ₂ op lv rv
            else
              (.error (.zisk .typeErr
                ("Operación aritmética '" ++ arithOpStr op ++
                 "' requiere operandos numéricos (o strings para '+', '*') pero se obtuvieron '" ++
                 infer_type σ₂.tsys lv ++ "' y '" ++ infer_type σ₂.tsys rv ++ "'.") 0 0), σ₂)
  | .opLogica op l r, σ =>
      match execute l σ with
      | (.error e, σ₁) => (.error e, σ₁)
      | (.ok lv, σ₁) =>
          match op with
          | .land =>
              if !truthy σ₁ lv then (.ok (.vbool false), σ₁)
              else
                match execute r σ₁ with
                | (.error e, σ₂) => (.error e, σ₂)
                | (.ok rv, σ₂) => (.ok rv, σ₂)
          | .lor =>
              if truthy σ₁ lv then (.ok (.vbool true), σ₁)
              else
                match execute r σ₁ with
                | (.error e, σ₂) => (.error e, σ₂)
                | (.ok rv, σ₂) => (.ok rv, σ₂)
  | .opUnaria op e, σ =>
      match execute e σ with
      | (.error ex, σ₁) => (.error ex, σ₁)
      | (.ok v, σ₁) =>
          match op with
          | .neg =>
              match toPyNum v with
              | some n => (.ok (numToValue (numNeg n)), σ₁)
              | none =>
                  (.error (.zisk .typeErr
                    ("Operador unario '-' requiere operando numérico, no '" ++
                     infer_type σ₁.tsys v ++ "'.") 0 0), σ₁)
          | .lnot => (.ok (.vbool (!truthy σ₁ v)), σ₁)
  | .accesoIndice collNode idxNode, σ =>
      match execute collNode σ with
      | (.error e, σ₁) => (.error e, σ₁)
      | (.ok coll, σ₁) =>
        match execute idxNode σ₁ with
        | (.error e, σ₂) => (.error e, σ₂)
        | (.ok idxVal, σ₂) =>
            match coll with
            | .vlist addr =>
                if !isInstInt idxVal then
                  (.error (.zisk .typeErr
                    ("Índice de lista debe ser entero, no '" ++
                     infer_type σ₂.tsys idxVal ++ "'.") 0 0), σ₂)
                else
                  let idx := (toIntLike idxVal).getD 0
                  let xs := σ₂.listHeap.getD addr []
                  if 0 ≤ idx && idx < (xs.length : Int) then
                    (.ok (xs.getD idx.toNat .vnone), σ₂)
                  else
                    (.error (.zisk .indexE
                      ("Índice " ++ toString idx ++ " fuera de rango para lista de tamaño " ++
                       toString xs.length ++ ".") 0 0), σ₂)
            | .vdict addr =>
                match assocGet (σ₂.dictHeap.getD addr []) idxVal with
                | some v => (.ok v, σ₂)
                | none =>
                    (.error (.zisk .keyE
                      ("Clave '" ++ pyStr idxVal ++
                       "' no encontrada en el objeto (diccionario).") 0 0), σ₂)
            | .vstr s =>
                if !isInstInt idxVal then
                  (.error (.zisk .typeErr
                    ("Índice de texto debe ser entero, no '" ++
                     infer_type σ₂.tsys idxVal ++ "'.") 0 0), σ₂)
                else
                  let idx := (toIntLike idxVal).getD 0
                  if 0 ≤ idx && idx < (s.length : Int) then
                    (.ok (.vstr (strCharAt s idx.toNat)), σ₂)
                  else
                    (.error (.zisk .indexE
                      ("Índice " ++ toString idx ++ " fuera de rango para texto de tamaño " ++
                       toString s.length ++ ".") 0 0), σ₂)
            | _ =>
                (.error (.zisk .typeErr
                  ("Tipo '" ++ infer_type σ₂.tsys coll ++
                   "' no soporta acceso por índice '[]'.") 0 0), σ₂)
  | .asignacion op lhs rhs, σ =>
      match execute rhs σ with
      | (.error e, σ₁) => (.error e, σ₁)
      | (.ok rhsVal, σ₁) =>
        match getLvalueLocation lhs σ₁ with
        | (.error e, σ₂) => (.error e, σ₂)
        | (.ok loc, σ₂) =>
            let curRes : Except Exc CurVal :=
              if op == .assign then .ok (.ofValue .vnone)
              else readCurrent σ₂ loc (assignOpStr op) (nodeTypeName lhs)
            match curRes with
            | .error e => (.error e, σ₂)
            | .ok cur =>
                match compoundCombine σ₂ op cur rhsVal with
                | (.error e, σ₃) => (.error e, σ₃)
                | (.ok finalVal, σ₃) => assignWrite σ₃ loc op finalVal
  | .declaracionVar name tipo val, σ =>
      match execOpt val σ with
      | (.error e, σ₁) => (.error e, σ₁)
      | (.ok v, σ₁) =>
          match declareVariable σ₁ name v tipo false 0 0 with
          | .error e => (.error e, σ₁)
          | .ok σ₂ => (.ok v, σ₂)
  | .declaracionConst name tipo val, σ =>
      match val with
      | none => (.error (.zisk .runtime "Constante debe ser inicializada." 0 0), σ)
      | some vn =>
          match execute vn σ with
          | (.error e, σ₁) => (.error e, σ₁)
          | (.ok v, σ₁) =>
              match declareVariable σ₁ name v tipo true 0 0 with
              | .error e => (.error e, σ₁)
              | .ok σ₂ => (.ok v, σ₂)
  | .retorna val l c, σ =>
      if σ.is_in_function == 0 then
        (.error (.zisk .runtime "'retorna' solo puede usarse dentro de una función o método." l c), σ)
      else
        match execOpt val σ with
        | (.error e, σ₁) => (.error e, σ₁)
        | (.ok v, σ₁) => (.error (.ret v), σ₁)
  | .brkStmt l c, σ =>
      if σ.is_in_loop == 0 then
        (.error (.zisk .runtime "'break' solo puede usarse dentro de un bucle." l c), σ)
      else (.error .brk, σ)
  | .contStmt l c, σ =>
      if σ.is_in_loop == 0 then
        (.error (.zisk .runtime "'continua' solo puede usarse dentro de un bucle." l c), σ)
      else (.error .cont, σ)
  | .tryCatch t errVar catchB finallyB, σ =>
      -- catch execution (lines 2310-2316 and 2319-2328): the handler runs only
      -- when both a catch block and an error variable are present (the
      -- `if catch_b and err_var_name` tests); then a scope is entered and the
      -- error object is bound with declared type `objeto` — when that
      -- declaration itself raises, the entered scope is never popped and the
      -- new error propagates — otherwise the catch block runs and the scope
      -- is popped in a `finally`
      let afterBody : Except Exc Value × EvalState :=
        match execute t σ with
        | (.ok v, σ₁) => (.ok v, σ₁)
        | (.error e, σ₁) =>
          match e with
          | .ret v => (.error (.ret v), σ₁)
          | .brk => (.error .brk, σ₁)
          | .cont => (.error .cont, σ₁)
          | .zisk k msg el ec =>
              match errVar with
              | none => (.error (.zisk k msg el ec), σ₁)
              | some ev =>
                  if isNada catchB then (.error (.zisk k msg el ec), σ₁)
                  else
                    let σ₂ := enterScope σ₁
                    (match declareVariable σ₂ ev (.verr (ziskClassName k) msg) (some "objeto") false 0 0 with
                     | .error e₂ => (.error e₂, σ₂)
                     | .ok σ₃ =>
                         match execute catchB σ₃ with
                         | (o, σ₄) => (o, exitScope σ₄))
          | .py nm pmsg =>
              match errVar with
              | none =>
                  (.error (.zisk .runtime
                    ("Error no capturado: " ++ nm ++ ": " ++ pmsg) 0 0), σ₁)
              | some ev =>
                  if isNada catchB then
                    (.error (.zisk .runtime
                      ("Error no capturado: " ++ nm ++ ": " ++ pmsg) 0 0), σ₁)
                  else
                    let σ₂ := enterScope σ₁
                    (match declareVariable σ₂ ev
                        (.verr "ZiskRuntimeError" ("Excepción Python: " ++ nm ++ ": " ++ pmsg))
                        (some "objeto") false 0 0 with
                     | .error e₂ => (.error e₂, σ₂)
                     | .ok σ₃ =>
                         match execute catchB σ₃ with
                         | (o, σ₄) => (o, exitScope σ₄))
      if isNada finallyB then afterBody
      else
        match execute finallyB afterBody.2 with
        | (.ok _, σf) => (afterBody.1, σf)
        | (.error ef, σf) => (.error ef, σf)
  | .bloque stmts, σ =>
      let r := execSeq stmts (enterScope σ) .vnone
      (r.1, exitScope r.2)
  | .programa stmts, σ => execSeq stmts σ .vnone

/-- Statement-sequence execution of PROGRAMA and BLOQUE bodies: the
running result is the last statement's value, an exception aborts the
sequence. -/
def execSeq : List AST → EvalState → Value → Except Exc Value × EvalState
  | [], σ, acc => (.ok acc, σ)
  | s :: rest, σ, _ =>
      match execute s σ with
      | (.ok v, σ₁) => execSeq rest σ₁ v
      | (.error e, σ₁) => (.error e, σ₁)

/-- Left-to-right evaluation of an expression list (LISTA_LITERAL
elements). -/
def execMany : List AST → EvalState → Except Exc (List Value) × EvalState
  | [], σ => (.ok [], σ)
  | e :: rest, σ =>
      match execute e σ with
      | (.error ex, σ₁) => (.error ex, σ₁)
      | (.ok v, σ₁) =>
          match execMany rest σ₁ with
          | (.ok vs, σ₂) => (.ok (v :: vs), σ₂)
          | (.error ex, σ₂) => (.error ex, σ₂)

/-- Left-to-right evaluation of OBJETO_LITERAL properties into dict
entries (duplicate keys overwrite, as in a Python dict display). -/
def execProps : List (String × AST) → EvalState → List (Value × Value) →
    Except Exc (List (Value × Value)) × EvalState
  | [], σ, acc => (.ok acc, σ)
  | (k, e) :: rest, σ, acc =>
      match execute e σ with
      | (.error ex, σ₁) => (.error ex, σ₁)
      | (.ok v, σ₁) => execProps rest σ₁ (assocSet acc (.vstr k) v)

/-- Optional-subexpression execution (`execute(val) if val else None`). -/
def execOpt : Option AST → EvalState → Except Exc Value × EvalState
  | none, σ => (.ok .vnone, σ)
  | some e, σ => execute e σ

/-- ZiskREPL._get_lvalue_location (lines 1824-1862) for the modelled
target forms. An identifier resolves to the innermost frame containing
it; an undefined identifier reaches
`ZiskRuntimeError(msg, lhs_node[2], lhs_node[3])` whose argument
`lhs_node[2]` indexes past the end of the two-element IDENTIFICADOR
tuple, so a host IndexError is raised instead. An index target evaluates
the collection and the index; a list requires `isinstance(index, int)`, a
dict takes `str(index)` as key, anything else is a type error. The
member-access arm (lines 1838-1845) targets a node kind outside the
modelled fragment. -/
def getLvalueLocation : AST → EvalState → Except Exc Loc × EvalState
  | .identificador name, σ =>
      match findFrameIdx σ name with
      | some i => (.ok (.scopeVar i name), σ)
      | none => (.error (.py "IndexError" "tuple index out of range"), σ)
  | .accesoIndice collNode idxNode, σ =>
      match execute collNode σ with
      | (.error e, σ₁) => (.error e, σ₁)
      | (.ok coll, σ₁) =>
        match execute idxNode σ₁ with
        | (.error e, σ₂) => (.error e, σ₂)
        | (.ok idxVal, σ₂) =>
            match coll with
            | .vlist addr =>
                if isInstInt idxVal then (.ok (.listElem addr idxVal), σ₂)
                else (.error (.zisk .typeErr "El índice de la lista debe ser un entero." 0 0), σ₂)
            | .vdict addr => (.ok (.dictElem addr (pyStr idxVal)), σ₂)
            | _ =>
                (.error (.zisk .typeErr
                  "Solo se puede usar acceso por índice '[]' en listas o diccionarios." 0 0), σ₂)
  | lhs, σ =>
      (.error (.zisk .runtime
        ("Lado izquierdo de asignación no válido: " ++ nodeTypeName lhs) 0 0), σ)

end

/-- Names of the native function table entries (lines 1711-1721), in
insertion order. -/
def nativeFunctionNames : List String :=
  ["mostrar", "ingresar", "longitud", "tipo_de", "convertir_a_entero",
   "convertir_a_decimal", "convertir_a_texto", "convertir_a_booleano"]

/-- Initial state of a freshly constructed ZiskREPL: one empty global
frame, empty heaps and tables except the native functions, zero nesting
counters, and a fresh type system. -/
def initState : EvalState :=
  { scopes := [[]]
  , listHeap := []
  , dictHeap := []
  , functions := nativeFunctionNames.map (fun n => (n, Value.vfunc n))
  , classes := []
  , modules := []
  , is_in_function := 0
  , is_in_loop := 0
  , tsys := { class_hierarchy := [], type_annotations := [] } }

/-- Constant folding of one arithmetic node with two NUMERO children
(lines 1660-1676). For a zero divisor the code builds a ZiskError without
raising it (lines 1670, 1673), so the host division or modulo then raises
ZeroDivisionError, which the surrounding `except TypeError` does not
catch; int/float arithmetic never raises TypeError, so that handler is
inert in this fragment. -/
def foldArith (op : ArithOp) (a b : PyNum) : Except Exc AST :=
  match op with
  | .add => .ok (.numero (numAdd a b))
  | .sub => .ok (.numero (numSub a b))
  | .mul => .ok (.numero (numMul a b))
  | .div =>
      if numIsZero b then .error (.py "ZeroDivisionError" "division by zero")
      else .ok (.numero (numDiv a b))
  | .mod =>
      if numIsZero b then .error (.py "ZeroDivisionError" "integer modulo by zero")
      else .ok (.numero (numMod a b))

mutual

/-- ZiskOptimizer.optimize (lines 1639-1696) over the modelled fragment:
children are optimized first (post-order), then an OPERACION_ARITMETICA
node whose optimized children are both NUMERO literals is folded. The
dead-code branches (lines 1679-1692) act only on SI and MIENTRAS nodes,
which lie outside the modelled fragment, as does the None-filtering of
child lists they feed (line 1651). -/
def optimize : AST → Except Exc AST
  | .nada => .ok .nada
  | .numero n => .ok (.numero n)
  | .cadena s => .ok (.cadena s)
  | .booleano b => .ok (.booleano b)
  | .nulo => .ok .nulo
  | .identificador n => .ok (.identificador n)
  | .listaLiteral xs =>
      match optimizeList xs with
      | .error e => .error e
      | .ok xs' => .ok (.listaLiteral xs')
  | .objetoLiteral ps =>
      match optimizeProps ps with
      | .error e => .error e
      | .ok ps' => .ok (.objetoLiteral ps')
  | .opAritmetica op l r =>
      match optimize l with
      | .error e => .error e
      | .ok l' =>
        match optimize r with
        | .error e => .error e
        | .ok r' =>
            match l', r' with
            | .numero a, .numero b => foldArith op a b
            | _, _ => .ok (.opAritmetica op l' r')
  | .opLogica op l r =>
      match optimize l with
      | .error e => .error e
      | .ok l' =>
        match optimize r with
        | .error e => .error e
        | .ok r' => .ok (.opLogica op l' r')
  | .opUnaria op e =>
      match optimize e with
      | .error ex => .error ex
      | .ok e' => .ok (.opUnaria op e')
  | .accesoIndice c i =>
      match optimize c with
      | .error e => .error e
      | .ok c' =>
        match optimize i with
        | .error e => .error e
        | .ok i' => .ok (.accesoIndice c' i')
  | .asignacion op lhs rhs =>
      match optimize lhs with
      | .error e => .error e
      | .ok lhs' =>
        match optimize rhs with
        | .error e => .error e
        | .ok rhs' => .ok (.asignacion op lhs' rhs')
  | .declaracionVar n t v =>
      match optimizeOpt v with
      | .error e => .error e
      | .ok v' => .ok (.declaracionVar n t v')
  | .declaracionConst n t v =>
      match optimizeOpt v with
      | .error e => .error e
      | .ok v' => .ok (.declaracionConst n t v')
  | .retorna v l c =>
      match optimizeOpt v with
      | .error e => .error e
      | .ok v' => .ok (.retorna v' l c)
  | .brkStmt l c => .ok (.brkStmt l c)
  | .contStmt l c => .ok (.contStmt l c)
  | .tryCatch t ev cb fb =>
      match optimize t with
      | .error e => .error e
      | .ok t' =>
        match optimize cb with
        | .error e => .error e
        | .ok cb' =>
          match optimize fb with
          | .error e => .error e
          | .ok fb' => .ok (.tryCatch t' ev cb' fb')
  | .bloque xs =>
      match optimizeList xs with
      | .error e => .error e
      | .ok xs' => .ok (.bloque xs')
  | .programa xs =>
      match optimizeList xs with
      | .error e => .error e
      | .ok xs' => .ok (.programa xs')

/-- Elementwise optimization of a child list. -/
def optimizeList : List AST → Except Exc (List AST)
  | [] => .ok []
  | x :: xs =>
      match optimize x with
      | .error e => .error e
      | .ok x' =>
          match optimizeList xs with
          | .error e => .error e
          | .ok xs' => .ok (x' :: xs')

/-- Elementwise optimization of object-literal properties (the generic
child traversal reaches the value node of each `(key, value)` pair). -/
def optimizeProps : List (String × AST) → Except Exc (List (String × AST))
  | [] => .ok []
  | (k, x) :: xs =>
      match optimize x with
      | .error e => .error e
      | .ok x' =>
          match optimizeProps xs with
          | .error e => .error e
          | .ok xs' => .ok ((k, x') :: xs')

/-- Optional-child optimization. -/
def optimizeOpt : Option AST → Except Exc (Option AST)
  | none => .ok none
  | some x =>
      match optimize x with
      | .error e => .error e
      | .ok x' => .ok (some x')

end

/-- Token as produced by the lexer: kind, lexeme, 1-based line and column
(the tuples of ZiskLexer.tokenize). -/
structure Token where
  kind : String
  val : String
  line : Nat
  col : Nat
deriving Repr, DecidableEq

/-- Parser state: the not-yet-consumed tokens (the source keeps the full
list with an index and a `current_token` mirror; keeping the remaining
suffix is the same access pattern, since the parser never reads behind
the index), the last token of the whole input (`self.tokens[-1]`, used
only by end-of-input diagnostics), and the parse-time scope stack with
the innermost scope first (the source appends at the end and reads
`scopes[-1]`). A scope entry records the declaration kind and optional
annotated type, as at lines 344, 385, 415. -/
structure PState where
  toks : List Token
  lastTok : Option Token
  scopes : List (List (String × (String × Option String)))
deriving Repr, DecidableEq

/-- Parse failure: a ZiskError with message, line and column — or
exhaustion of the recursion fuel that makes the embedded
recursive-descent functions total (the source recursion is unbounded;
every theorem about the parser quantifies over or supplies enough fuel). -/
inductive PFail where
  | perr (msg : String) (line col : Nat)
  | noFuel
deriving Repr, DecidableEq

/-- Outcome of a parse function: failure, or a result with the new state. -/
abbrev PRes (α : Type) := Except PFail (α × PState)

/-- Current token (`self.current_token`). -/
def currentToken (st : PState) : Option Token := st.toks.head?

/-- Token-stream advance (`self.token_index += 1`). -/
def advanceTok (st : PState) : PState := { st with toks := st.toks.tail }

/-- ZiskParser.enter_scope (line 149). -/
def pEnterScope (st : PState) : PState := { st with scopes := [] :: st.scopes }

/-- ZiskParser.exit_scope (lines 152-154): pops only while more than one
scope remains. -/
def pExitScope (st : PState) : PState :=
  if st.scopes.length > 1 then { st with scopes := st.scopes.tail } else st

/-- ZiskParser.variable_declared_in_current_scope (lines 159-160). -/
def variable_declared_in_current_scope (st : PState) (name : String) : Bool :=
  (assocGet (st.scopes.headD []) name).isSome

/-- Entry of a declaration into the innermost parse-time scope. -/
def pDeclare (st : PState) (name : String) (info : String × Option String) : PState :=
  { st with scopes := st.scopes.set 0 (assocSet (st.scopes.headD []) name info) }

/-- ZiskParser.consume (lines 908-938): fails at end of input with the
message built from the last token, fails on a kind or value mismatch,
otherwise returns the token and advances. -/
def consume (st : PState) (expectedKind : Option String) (expectedVal : Option String) :
    PRes Token :=
  match currentToken st with
  | none =>
      let expectedInfo :=
        (match expectedKind with | some k => "tipo " ++ k | none => "") ++
        (match expectedKind, expectedVal with | some _, some _ => " " | _, _ => "") ++
        (match expectedVal with | some v => "valor '" ++ v ++ "'" | none => "")
      let base := "Se esperaba " ++ (if expectedInfo == "" then "un token" else expectedInfo) ++
        " pero se llegó al final del código."
      (match st.lastTok with
       | some t =>
           .error (.perr (base ++ " Último token procesado: '" ++ t.val ++ "' (tipo " ++
             t.kind ++ ") en línea " ++ toString t.line ++ ", columna " ++
             toString t.col ++ ".") t.line (t.col + t.val.length))
       | none => .error (.perr base 1 1))
  | some tok =>
      if (match expectedKind with | some k => tok.kind != k | none => false) then
        .error (.perr ("Se esperaba token de tipo " ++ expectedKind.getD "" ++
          ", pero se encontró " ++ tok.kind ++ " ('" ++ tok.val ++ "')") tok.line tok.col)
      else if (match expectedVal with | some v => tok.val != v | none => false) then
        .error (.perr ("Se esperaba valor '" ++ expectedVal.getD "" ++
          "', pero se encontró '" ++ tok.val ++ "'") tok.line tok.col)
      else .ok (tok, advanceTok st)

/-- ZiskParser.consume_optional_semicolon (lines 940-945). -/
def consumeOptionalSemicolon (st : PState) : PState :=
  match currentToken st with
  | some tok => if tok.kind == "PUNTO_COMA" then advanceTok st else st
  | none => st

/-- Python `re.match(r'^[a-z_][a-zA-Z0-9_]*$', name)` (line 363), the
naming rule for variables. -/
def validLowerName (name : String) : Bool :=
  match name.data with
  | [] => false
  | c :: cs =>
      (c.isLower || c == '_') &&
      cs.all (fun d => d.isAlpha || d.isDigit || d == '_')

/-- Python `re.match(r'^[A-Z_][A-Z0-9_]*$', name)` (line 399), the naming
rule for constants. -/
def validUpperName (name : String) : Bool :=
  match name.data with
  | [] => false
  | c :: cs =>
      (c.isUpper || c == '_') &&
      cs.all (fun d => d.isUpper || d.isDigit || d == '_')

/-- Numeric value of a digit sequence. -/
def digitsVal (cs : List Char) : Nat :=
  cs.foldl (fun acc c => acc * 10 + (c.toNat - 48)) 0

/-- Payload of a NUMERO token (line 604): a float when the lexeme has a
dot, else an int. The lexeme comes from the number pattern
`\d+(\.\d+)?`, so plain digit parsing suffices. -/
def strToPyNum (s : String) : PyNum :=
  let cs := s.data
  if cs.contains '.' then
    let ip := cs.takeWhile (fun c => c != '.')
    let fp := (cs.dropWhile (fun c => c != '.')).drop 1
    .pfloat ((digitsVal ip : Rat) + (digitsVal fp : Rat) / ((10 : Rat) ^ fp.length))
  else .pint (digitsVal cs : Int)

/-- Lexeme of a CADENA token without its surrounding quotes
(`token_value[1:-1]`, line 608; no escape processing takes place). -/
def stripQuotes (s : String) : String := (s.drop 1).dropRight 1

mutual

/-- ZiskParser.parse_programa (lines 174-178) over the modelled statement
fragment: declarations until the token stream is exhausted. -/
def parse_programa (fuel : Nat) (st : PState) : PRes (List AST) :=
  match fuel with
  | 0 => .error .noFuel
  | fuel + 1 =>
      match currentToken st with
      | none => .ok ([], st)
      | some _ =>
          match parse_declaracion fuel st with
          | .error e => .error e
          | .ok (d, st₁) =>
              match parse_programa fuel st₁ with
              | .error e => .error e
              | .ok (ds, st₂) => .ok (d :: ds, st₂)

/-- ZiskParser.parse_declaracion (lines 180-204) restricted to the
modelled fragment: VAR and CONST declarations dispatch to their parsers,
everything else falls through to parse_sentencia (the FUNCION, CLASE and
IMPORTA arms target node kinds outside the fragment). -/
def parse_declaracion (fuel : Nat) (st : PState) : PRes AST :=
  match fuel with
  | 0 => .error .noFuel
  | fuel + 1 =>
      match currentToken st with
      | none =>
          (match st.lastTok with
           | some t => .error (.perr "Se esperaba una declaración, pero se encontró el fin del archivo." t.line t.col)
           | none => .error (.perr "Se esperaba una declaración, pero se encontró el fin del archivo." 1 1))
      | some tok =>
          if tok.kind == "VAR" then parse_declaracion_variable fuel st
          else if tok.kind == "CONST" then parse_declaracion_constante fuel st
          else parse_sentencia fuel st

/-- ZiskParser.parse_sentencia (lines 424-459) restricted to the modelled
fragment: RETORNA, BREAK, CONTINUA, an explicit block, else an
expression statement with optional semicolon (the SI/MIENTRAS/PARA/
HACER_MIENTRAS/MOSTRAR/INGRESAR/TRY arms target node kinds outside the
fragment). -/
def parse_sentencia (fuel : Nat) (st : PState) : PRes AST :=
  match fuel with
  | 0 => .error .noFuel
  | fuel + 1 =>
      match currentToken st with
      | none =>
          (match st.lastTok with
           | some t => .error (.perr "Se esperaba una sentencia, pero se encontró el fin del archivo." t.line t.col)
           | none => .error (.perr "Se esperaba una sentencia, pero se encontró el fin del archivo." 1 1))
      | some tok =>
          if tok.kind == "RETORNA" then
            match consume st (some "RETORNA") none with
            | .error e => .error e
            | .ok (startTok, st₁) =>
                match currentToken st₁ with
                | some nxt =>
                    if nxt.kind == "PUNTO_COMA" || (nxt.kind == "LLAVE" && nxt.val == "\x7d") then
                      .ok (.retorna none startTok.line startTok.col, consumeOptionalSemicolon st₁)
                    else
                      match parse_expresion fuel st₁ with
                      | .error e => .error e
                      | .ok (v, st₂) =>
                          .ok (.retorna (some v) startTok.line startTok.col, consumeOptionalSemicolon st₂)
                | none => .ok (.retorna none startTok.line startTok.col, st₁)
          else if tok.kind == "BREAK" then
            match consume st (some "BREAK") none with
            | .error e => .error e
            | .ok (startTok, st₁) =>
                .ok (.brkStmt startTok.line startTok.col, consumeOptionalSemicolon st₁)
          else if tok.kind == "CONTINUA" then
            match consume st (some "CONTINUA") none with
            | .error e => .error e
            | .ok (startTok, st₁) =>
                .ok (.contStmt startTok.line startTok.col, consumeOptionalSemicolon st₁)
          else if tok.kind == "LLAVE" && tok.val == "\x7b" then
            parse_bloque fuel st
          else
            match parse_expresion fuel st with
            | .error e => .error e
            | .ok (e, st₁) => .ok (e, consumeOptionalSemicolon st₁)

/-- ZiskParser.parse_bloque (lines 873-887) with
`is_function_body = False`: enter a fresh parse-time scope, consume `{`,
parse declarations until `}`, consume `}`, exit the scope. -/
def parse_bloque (fuel : Nat) (st : PState) : PRes AST :=
  match fuel with
  | 0 => .error .noFuel
  | fuel + 1 =>
      let st₀ := pEnterScope st
      match consume st₀ (some "LLAVE") (some "\x7b") with
      | .error e => .error e
      | .ok (_, st₁) =>
          match parse_bloque_items fuel st₁ with
          | .error e => .error e
          | .ok (stmts, st₂) =>
              match consume st₂ (some "LLAVE") (some "\x7d") with
              | .error e => .error e
              | .ok (_, st₃) => .ok (.bloque stmts, pExitScope st₃)

/-- Statement loop of parse_bloque (lines 882-883): declarations while the
current token exists and is not `}`. -/
def parse_bloque_items (fuel : Nat) (st : PState) : PRes (List AST) :=
  match fuel with
  | 0 => .error .noFuel
  | fuel + 1 =>
      match currentToken st with
      | none => .ok ([], st)
      | some tok =>
          if tok.val == "\x7d" then .ok ([], st)
          else
            match parse_declaracion fuel st with
            | .error e => .error e
            | .ok (d, st₁) =>
                match parse_bloque_items fuel st₁ with
                | .error e => .error e
                | .ok (ds, st₂) => .ok (d :: ds, st₂)

/-- ZiskParser.parse_declaracion_variable (lines 358-391) for a local
declaration (`es_miembro = False`): consume `var` and the name, enforce
the lower-case naming rule, reject a name already present in the
innermost parse-time scope ("ya declarada en este ámbito", at the name
token's position), parse the optional `: TIPO` annotation and the
optional `= expression` initializer, record the name in the innermost
scope, and consume an optional semicolon. -/
def parse_declaracion_variable (fuel : Nat) (st : PState) : PRes AST :=
  match fuel with
  | 0 => .error .noFuel
  | fuel + 1 =>
      match consume st (some "VAR") none with
      | .error e => .error e
      | .ok (_, st₁) =>
          match consume st₁ (some "IDENTIFICADOR") none with
          | .error e => .error e
          | .ok (nombreTok, st₂) =>
              let nombre := nombreTok.val
              if !validLowerName nombre then
                .error (.perr "Nombre de variable debe usar camelCase o snake_case comenzando con minúscula." nombreTok.line nombreTok.col)
              else if variable_declared_in_current_scope st₂ nombre then
                .error (.perr ("Variable '" ++ nombre ++ "' ya declarada en este ámbito.") nombreTok.line nombreTok.col)
              else
                match parse_tipo_opcional st₂ with
                | .error e => .error e
                | .ok (tipo, st₃) =>
                    match currentToken st₃ with
                    | some t =>
                        if t.kind == "OPERADOR" && t.val == "=" then
                          match consume st₃ (some "OPERADOR") (some "=") with
                          | .error e => .error e
                          | .ok (_, st₄) =>
                              match parse_expresion fuel st₄ with
                              | .error e => .error e
                              | .ok (valor, st₅) =>
                                  let st₆ := pDeclare st₅ nombre ("VAR", tipo)
                                  .ok (.declaracionVar nombre tipo (some valor),
                                       consumeOptionalSemicolon st₆)
                        else
                          let st₄ := pDeclare st₃ nombre ("VAR", tipo)
                          .ok (.declaracionVar nombre tipo none, consumeOptionalSemicolon st₄)
                    | none =>
                        let st₄ := pDeclare st₃ nombre ("VAR", tipo)
                        .ok (.declaracionVar nombre tipo none, consumeOptionalSemicolon st₄)

/-- ZiskParser.parse_declaracion_constante (lines 394-421) for a local
declaration: as for variables but with the upper-case naming rule, the
"Constante ... ya declarada" message, and a mandatory `=` initializer. -/
def parse_declaracion_constante (fuel : Nat) (st : PState) : PRes AST :=
  match fuel with
  | 0 => .error .noFuel
  | fuel + 1 =>
      match consume st (some "CONST") none with
      | .error e => .error e
      | .ok (_, st₁) =>
          match consume st₁ (some "IDENTIFICADOR") none with
          | .error e => .error e
          | .ok (nombreTok, st₂) =>
              let nombre := nombreTok.val
              if !validUpperName nombre then
                .error (.perr "Nombre de constante debe usar MAYUSCULAS_CON_GUIONES_BAJOS." nombreTok.line nombreTok.col)
              else if variable_declared_in_current_scope st₂ nombre then
                .error (.perr ("Constante '" ++ nombre ++ "' ya declarada en este ámbito.") nombreTok.line nombreTok.col)
              else
                match parse_tipo_opcional st₂ with
                | .error e => .error e
                | .ok (tipo, st₃) =>
                    match consume st₃ (some "OPERADOR") (some "=") with
                    | .error e => .error e
                    | .ok (_, st₄) =>
                        match parse_expresion fuel st₄ with
                        | .error e => .error e
                        | .ok (valor, st₅) =>
                            let st₆ := pDeclare st₅ nombre ("CONST", tipo)
                            .ok (.declaracionConst nombre tipo (some valor),
                                 consumeOptionalSemicolon st₆)

/-- Optional `: TIPO` annotation (lines 375-378 / 406-409). -/
def parse_tipo_opcional (st : PState) : PRes (Option String) :=
  match currentToken st with
  | some t =>
      if t.kind == "DOS_PUNTOS" then
        match consume st (some "DOS_PUNTOS") none with
        | .error e => .error e
        | .ok (_, st₁) =>
            match consume st₁ (some "TIPO") none with
            | .error e => .error e
            | .ok (tipoTok, st₂) => .ok (some tipoTok.val, st₂)
      else .ok (none, st)
  | none => .ok (none, st)

/-- ZiskParser.parse_expresion (line 473). -/
def parse_expresion (fuel : Nat) (st : PState) : PRes AST :=
  match fuel with
  | 0 => .error .noFuel
  | fuel + 1 => parse_expresion_asignacion fuel st

/-- ZiskParser.parse_expresion_asignacion (lines 476-501): parse the
left operand, and on an assignment operator check the l-value form
(identifier or index access in the modelled fragment; member access is
outside it) and recurse for right associativity. -/
def parse_expresion_asignacion (fuel : Nat) (st : PState) : PRes AST :=
  match fuel with
  | 0 => .error .noFuel
  | fuel + 1 =>
      match parse_expresion_logica_o fuel st with
      | .error e => .error e
      | .ok (izquierda, st₁) =>
          match currentToken st₁ with
          | some opTok =>
              if opTok.kind == "OPERADOR" &&
                  (opTok.val == "=" || opTok.val == "+=" || opTok.val == "-=" ||
                   opTok.val == "*=" || opTok.val == "/=" || opTok.val == "%=") then
                match consume st₁ (some "OPERADOR") none with
                | .error e => .error e
                | .ok (opTok', st₂) =>
                    if !(match izquierda with
                         | .identificador _ => true
                         | .accesoIndice _ _ => true
                         | _ => false) then
                      .error (.perr "El lado izquierdo de una asignación debe ser una variable, propiedad o elemento de lista." opTok'.line opTok'.col)
                    else
                      match parse_expresion_asignacion fuel st₂ with
                      | .error e => .error e
                      | .ok (derecha, st₃) =>
                          let op :=
                            if opTok'.val == "=" then AssignOp.assign
                            else if opTok'.val == "+=" then AssignOp.addA
                            else if opTok'.val == "-=" then AssignOp.subA
                            else if opTok'.val == "*=" then AssignOp.mulA
                            else if opTok'.val == "/=" then AssignOp.divA
                            else AssignOp.modA
                          .ok (.asignacion op izquierda derecha, st₃)
              else .ok (izquierda, st₁)
          | none => .ok (izquierda, st₁)

/-- ZiskParser.parse_expresion_logica_o (lines 504-510). -/
def parse_expresion_logica_o (fuel : Nat) (st : PState) : PRes AST :=
  match fuel with
  | 0 => .error .noFuel
  | fuel + 1 =>
      match parse_expresion_logica_y fuel st with
      | .error e => .error e
      | .ok (izquierda, st₁) => parse_logica_o_loop fuel izquierda st₁

/-- Operator loop of parse_expresion_logica_o. -/
def parse_logica_o_loop (fuel : Nat) (izquierda : AST) (st : PState) : PRes AST :=
  match fuel with
  | 0 => .error .noFuel
  | fuel + 1 =>
      match currentToken st with
      | some t =>
          if t.kind == "OPERADOR" && t.val == "||" then
            match consume st (some "OPERADOR") none with
            | .error e => .error e
            | .ok (_, st₁) =>
                match parse_expresion_logica_y fuel st₁ with
                | .error e => .error e
                | .ok (derecha, st₂) =>
                    parse_logica_o_loop fuel (.opLogica .lor izquierda derecha) st₂
          else .ok (izquierda, st)
      | none => .ok (izquierda, st)

/-- ZiskParser.parse_expresion_logica_y (lines 512-518). -/
def parse_expresion_logica_y (fuel : Nat) (st : PState) : PRes AST :=
  match fuel with
  | 0 => .error .noFuel
  | fuel + 1 =>
      match parse_expresion_comparacion fuel st with
      | .error e => .error e
      | .ok (izquierda, st₁) => parse_logica_y_loop fuel izquierda st₁

/-- Operator loop of parse_expresion_logica_y. -/
def parse_logica_y_loop (fuel : Nat) (izquierda : AST) (st : PState) : PRes AST :=
  match fuel with
  | 0 => .error .noFuel
  | fuel + 1 =>
      match currentToken st with
      | some t =>
          if t.kind == "OPERADOR" && t.val == "&&" then
            match consume st (some "OPERADOR") none with
            | .error e => .error e
            | .ok (_, st₁) =>
                match parse_expresion_comparacion fuel st₁ with
                | .error e => .error e
                | .ok (derecha, st₂) =>
                    parse_logica_y_loop fuel (.opLogica .land izquierda derecha) st₂
          else .ok (izquierda, st)
      | none => .ok (izquierda, st)

/-- ZiskParser.parse_expresion_comparacion (lines 520-527): the modelled
AST has no comparison node kind, so a comparison operator here is a
parse-time fuel stop rather than a node; the settled claims never
exercise comparison operators. This level otherwise forwards to the
additive level as in the source. -/
def parse_expresion_comparacion (fuel : Nat) (st : PState) : PRes AST :=
  match fuel with
  | 0 => .error .noFuel
  | fuel + 1 => parse_expresion_adicion fuel st

/-- ZiskParser.parse_expresion_adicion (lines 529-536). -/
def parse_expresion_adicion (fuel : Nat) (st : PState) : PRes AST :=
  match fuel with
  | 0 => .error .noFuel
  | fuel + 1 =>
      match parse_expresion_multiplicacion fuel st with
      | .error e => .error e
      | .ok (izquierda, st₁) => parse_adicion_loop fuel izquierda st₁

/-- Operator loop of parse_expresion_adicion. -/
def parse_adicion_loop (fuel : Nat) (izquierda : AST) (st : PState) : PRes AST :=
  match fuel with
  | 0 => .error .noFuel
  | fuel + 1 =>
      match currentToken st with
      | some t =>
          if t.kind == "OPERADOR" && (t.val == "+" || t.val == "-") then
            match consume st (some "OPERADOR") none with
            | .error e => .error e
            | .ok (opTok, st₁) =>
                match parse_expresion_multiplicacion fuel st₁ with
                | .error e => .error e
                | .ok (derecha, st₂) =>
                    let op := if opTok.val == "+" then ArithOp.add else ArithOp.sub
                    parse_adicion_loop fuel (.opAritmetica op izquierda derecha) st₂
          else .ok (izquierda, st)
      | none => .ok (izquierda, st)

/-- ZiskParser.parse_expresion_multiplicacion (lines 538-545). -/
def parse_expresion_multiplicacion (fuel : Nat) (st : PState) : PRes AST :=
  match fuel with
  | 0 => .error .noFuel
  | fuel + 1 =>
      match parse_expresion_unaria fuel st with
      | .error e => .error e
      | .ok (izquierda, st₁) => parse_multiplicacion_loop fuel izquierda st₁

/-- Operator loop of parse_expresion_multiplicacion. -/
def parse_multiplicacion_loop (fuel : Nat) (izquierda : AST) (st : PState) : PRes AST :=
  match fuel with
  | 0 => .error .noFuel
  | fuel + 1 =>
      match currentToken st with
      | some t =>
          if t.kind == "OPERADOR" && (t.val == "*" || t.val == "/" || t.val == "%") then
            match consume st (some "OPERADOR") none with
            | .error e => .error e
            | .ok (opTok, st₁) =>
                match parse_expresion_unaria fuel st₁ with
                | .error e => .error e
                | .ok (derecha, st₂) =>
                    let op :=
                      if opTok.val == "*" then ArithOp.mul
                      else if opTok.val == "/" then ArithOp.div
                      else ArithOp.mod
                    parse_multiplicacion_loop fuel (.opAritmetica op izquierda derecha) st₂
          else .ok (izquierda, st)
      | none => .ok (izquierda, st)

/-- ZiskParser.parse_expresion_unaria (lines 547-553). -/
def parse_expresion_unaria (fuel : Nat) (st : PState) : PRes AST :=
  match fuel with
  | 0 => .error .noFuel
  | fuel + 1 =>
      match currentToken st with
      | some t =>
          if t.kind == "OPERADOR" && (t.val == "-" || t.val == "!") then
            match consume st (some "OPERADOR") none with
            | .error e => .error e
            | .ok (opTok, st₁) =>
                match parse_expresion_unaria fuel st₁ with
                | .error e => .error e
                | .ok (e, st₂) =>
                    let op := if opTok.val == "-" then UnOp.neg else UnOp.lnot
                    .ok (.opUnaria op e, st₂)
          else parse_expresion_llamada_o_acceso fuel st
      | none => parse_expresion_llamada_o_acceso fuel st

/-- ZiskParser.parse_expresion_llamada_o_acceso (lines 555-587) restricted
to the modelled fragment: a primary followed by `[index]` suffixes (the
call and member-access suffixes build node kinds outside the fragment). -/
def parse_expresion_llamada_o_acceso (fuel : Nat) (st : PState) : PRes AST :=
  match fuel with
  | 0 => .error .noFuel
  | fuel + 1 =>
      match parse_expresion_primaria fuel st with
      | .error e => .error e
      | .ok (expr, st₁) => parse_sufijos fuel expr st₁

/-- Suffix loop of parse_expresion_llamada_o_acceso, index suffixes only. -/
def parse_sufijos (fuel : Nat) (expr : AST) (st : PState) : PRes AST :=
  match fuel with
  | 0 => .error .noFuel
  | fuel + 1 =>
      match currentToken st with
      | some t =>
          if t.kind == "CORCHETE" && t.val == "[" then
            match consume st (some "CORCHETE") (some "[") with
            | .error e => .error e
            | .ok (_, st₁) =>
                match parse_expresion fuel st₁ with
                | .error e => .error e
                | .ok (indice, st₂) =>
                    match consume st₂ (some "CORCHETE") (some "]") with
                    | .error e => .error e
                    | .ok (_, st₃) => parse_sufijos fuel (.accesoIndice expr indice) st₃
          else .ok (expr, st)
      | none => .ok (expr, st)

/-- ZiskParser.parse_expresion_primaria (lines 590-670) restricted to the
modelled fragment: identifier, number, string, booleans, null,
parenthesized expression, list literal and object literal (the
ESTE/NUEVO/INGRESAR arms build node kinds outside the fragment); an
unexpected token raises the "Expresión primaria no válida" error. -/
def parse_expresion_primaria (fuel : Nat) (st : PState) : PRes AST :=
  match fuel with
  | 0 => .error .noFuel
  | fuel + 1 =>
      match currentToken st with
      | none =>
          (match st.lastTok with
           | some t => .error (.perr "Se esperaba una expresión primaria, pero se encontró el fin del archivo." t.line t.col)
           | none => .error (.perr "Se esperaba una expresión primaria, pero se encontró el fin del archivo." 1 1))
      | some tok =>
          if tok.kind == "IDENTIFICADOR" then
            .ok (.identificador tok.val, advanceTok st)
          else if tok.kind == "NUMERO" then
            .ok (.numero (strToPyNum tok.val), advanceTok st)
          else if tok.kind == "CADENA" then
            .ok (.cadena (stripQuotes tok.val), advanceTok st)
          else if tok.kind == "VERDADERO" then
            .ok (.booleano true, advanceTok st)
          else if tok.kind == "FALSO" then
            .ok (.booleano false, advanceTok st)
          else if tok.kind == "NULO" then
            .ok (.nulo, advanceTok st)
          else if tok.kind == "PARENTESIS" && tok.val == "(" then
            match consume st (some "PARENTESIS") (some "(") with
            | .error e => .error e
            | .ok (_, st₁) =>
                match parse_expresion fuel st₁ with
                | .error e => .error e
                | .ok (e, st₂) =>
                    match consume st₂ (some "PARENTESIS") (some ")") with
                    | .error e => .error e
                    | .ok (_, st₃) => .ok (e, st₃)
          else if tok.kind == "CORCHETE" && tok.val == "[" then
            match consume st (some "CORCHETE") (some "[") with
            | .error e => .error e
            | .ok (_, st₁) =>
                match parse_lista_elems fuel st₁ true with
                | .error e => .error e
                | .ok (elems, st₂) =>
                    match consume st₂ (some "CORCHETE") (some "]") with
                    | .error e => .error e
                    | .ok (_, st₃) => .ok (.listaLiteral elems, st₃)
          else if tok.kind == "LLAVE" && tok.val == "\x7b" then
            match consume st (some "LLAVE") (some "\x7b") with
            | .error e => .error e
            | .ok (_, st₁) =>
                match parse_objeto_props fuel st₁ true with
                | .error e => .error e
                | .ok (props, st₂) =>
                    match consume st₂ (some "LLAVE") (some "\x7d") with
                    | .error e => .error e
                    | .ok (_, st₃) => .ok (.objetoLiteral props, st₃)
          else
            .error (.perr ("Expresión primaria no válida: token inesperado '" ++ tok.val ++
              "' (tipo " ++ tok.kind ++ ")") tok.line tok.col)

/-- Element loop of parse_lista_literal (lines 672-680); `first` tracks
whether a separating comma is still unnecessary. -/
def parse_lista_elems (fuel : Nat) (st : PState) (first : Bool) : PRes (List AST) :=
  match fuel with
  | 0 => .error .noFuel
  | fuel + 1 =>
      match currentToken st with
      | none => .ok ([], st)
      | some t =>
          if t.val == "]" then .ok ([], st)
          else
            match (if first then .ok (⟨"", "", 0, 0⟩, st) else consume st (some "COMA") none :
                    PRes Token) with
            | .error e => .error e
            | .ok (_, st₁) =>
                match parse_expresion fuel st₁ with
                | .error e => .error e
                | .ok (e, st₂) =>
                    match parse_lista_elems fuel st₂ false with
                    | .error e => .error e
                    | .ok (es, st₃) => .ok (e :: es, st₃)

/-- Property loop of parse_objeto_literal (lines 682-706). -/
def parse_objeto_props (fuel : Nat) (st : PState) (first : Bool) :
    PRes (List (String × AST)) :=
  match fuel with
  | 0 => .error .noFuel
  | fuel + 1 =>
      match currentToken st with
      | none => .ok ([], st)
      | some t =>
          if t.val == "\x7d" then .ok ([], st)
          else
            match (if first then .ok (⟨"", "", 0, 0⟩, st) else consume st (some "COMA") none :
                    PRes Token) with
            | .error e => .error e
            | .ok (_, st₁) =>
                match currentToken st₁ with
                | none => .error (.perr "Se esperaba un identificador o cadena como clave de objeto." 1 1)
                | some claveTok =>
                    if claveTok.kind == "IDENTIFICADOR" || claveTok.kind == "CADENA" then
                      let clave := if claveTok.kind == "CADENA" then stripQuotes claveTok.val
                        else claveTok.val
                      let st₂ := advanceTok st₁
                      match consume st₂ (some "DOS_PUNTOS") none with
                      | .error e => .error e
                      | .ok (_, st₃) =>
                          match parse_expresion fuel st₃ with
                          | .error e => .error e
                          | .ok (valor, st₄) =>
                              match parse_objeto_props fuel st₄ false with
                              | .error e => .error e
                              | .ok (props, st₅) => .ok ((clave, valor) :: props, st₅)
                    else
                      .error (.perr "Se esperaba un identificador o cadena como clave de objeto." claveTok.line claveTok.col)

end

/-- ZiskParser.parse (lines 168-172): the initial state from a token
list, one empty global scope, and the program production. -/
def parse (fuel : Nat) (tokens : List Token) : Except PFail AST :=
  let st : PState := { toks := tokens, lastTok := tokens.getLast?, scopes := [[]] }
  match parse_programa fuel st with
  | .error e => .error e
  | .ok (ds, _) => .ok (.programa ds)

-- Auxiliary definitions used by the theorems below.

/-- Control-transfer events among the exceptions. -/
def isCtrlEvent : Exc → Bool
  | .ret _ => true
  | .brk => true
  | .cont => true
  | _ => false

/-- Expression ASTs built solely from numeric literals and the four binary
operators `+`, `-`, `*`, `/`. -/
inductive PureArith : AST → Prop where
  | num (n : PyNum) : PureArith (.numero n)
  | bin (op : ArithOp) (l r : AST) (hop : op ≠ .mod)
      (hl : PureArith l) (hr : PureArith r) : PureArith (.opAritmetica op l r)

/-- A two-class hierarchy: `B` extends `A` (as if `clase A { } clase B
extiende A { }` had been executed). -/
def hierAB : TypeSystem :=
  { class_hierarchy := [("A", none), ("B", some "A")], type_annotations := [] }

/-- Token list of `var x = 1; var x = 2;` (both declarations in the same
scope). -/
def c6SameScopeToks : List Token :=
  [⟨"VAR","var",1,1⟩, ⟨"IDENTIFICADOR","x",1,5⟩, ⟨"OPERADOR","=",1,7⟩, ⟨"NUMERO","1",1,9⟩,
   ⟨"PUNTO_COMA",";",1,10⟩,
   ⟨"VAR","var",1,12⟩, ⟨"IDENTIFICADOR","x",1,16⟩, ⟨"OPERADOR","=",1,18⟩, ⟨"NUMERO","2",1,20⟩,
   ⟨"PUNTO_COMA",";",1,21⟩]

/-- Token list of `var x = 1; { var x = 2; }` (the second declaration in
a nested block). -/
def c6NestedToks : List Token :=
  [⟨"VAR","var",1,1⟩, ⟨"IDENTIFICADOR","x",1,5⟩, ⟨"OPERADOR","=",1,7⟩, ⟨"NUMERO","1",1,9⟩,
   ⟨"PUNTO_COMA",";",1,10⟩,
   ⟨"LLAVE","\x7b",1,12⟩,
   ⟨"VAR","var",1,14⟩, ⟨"IDENTIFICADOR","x",1,18⟩, ⟨"OPERADOR","=",1,20⟩, ⟨"NUMERO","2",1,22⟩,
   ⟨"PUNTO_COMA",";",1,23⟩,
   ⟨"LLAVE","\x7d",1,25⟩]

-- Unfolding and auxiliary lemmas shared by the claim theorems.

/-- Unfolding lemma for the `&&` branch of the operation evaluator. -/
theorem execute_land_def (l r : AST) (σ : EvalState) :
    execute (.opLogica .land l r) σ =
      match execute l σ with
      | (.error e, σ₁) => (.error e, σ₁)
      | (.ok lv, σ₁) =>
          if !truthy σ₁ lv then (.ok (.vbool false), σ₁)
          else
            match execute r σ₁ with
            | (.error e, σ₂) => (.error e, σ₂)
            | (.ok rv, σ₂) => (.ok rv, σ₂) := rfl

/-- Unfolding lemma for the `||` branch of the operation evaluator. -/
theorem execute_lor_def (l r : AST) (σ : EvalState) :
    execute (.opLogica .lor l r) σ =
      match execute l σ with
      | (.error e, σ₁) => (.error e, σ₁)
      | (.ok lv, σ₁) =>
          if truthy σ₁ lv then (.ok (.vbool true), σ₁)
          else
            match execute r σ₁ with
            | (.error e, σ₂) => (.error e, σ₂)
            | (.ok rv, σ₂) => (.ok rv, σ₂) := rfl

theorem execute_opAritmetica_def (op : ArithOp) (l r : AST) (σ : EvalState) :
    execute (.opAritmetica op l r) σ =
      match execute l σ with
      | (.error e, σ₁) => (.error e, σ₁)
      | (.ok lv, σ₁) =>
        match execute r σ₁ with
        | (.error e, σ₂) => (.error e, σ₂)
        | (.ok rv, σ₂) =>
            if isNumericVal lv && isNumericVal rv then arithApply σ₂ op lv rv
            else if op == .add && isStrVal lv && isStrVal rv then arithApply σ₂ op lv rv
            else if op == .mul &&
                ((isStrVal lv && isInstInt rv) || (isInstInt lv && isStrVal rv)) then
              arithApply σ₂ op lv rv
            else
              (.error (.zisk .typeErr
                ("Operación aritmética '" ++ arithOpStr op ++
                 "' requiere operandos numéricos (o strings para '+', '*') pero se obtuvieron '" ++
                 infer_type σ₂.tsys lv ++ "' y '" ++ infer_type σ₂.tsys rv ++ "'.") 0 0), σ₂) := rfl

/-- Unfolding lemma for the TRY_CATCH branch of the evaluator. -/
theorem execute_tryCatch_def (t : AST) (errVar : Option String)
    (catchB finallyB : AST) (σ : EvalState) :
    execute (.tryCatch t errVar catchB finallyB) σ =
      (let afterBody : Except Exc Value × EvalState :=
        match execute t σ with
        | (.ok v, σ₁) => (.ok v, σ₁)
        | (.error e, σ₁) =>
          match e with
          | .ret v => (.error (.ret v), σ₁)
          | .brk => (.error .brk, σ₁)
          | .cont => (.error .cont, σ₁)
          | .zisk k msg el ec =>
              match errVar with
              | none => (.error (.zisk k msg el ec), σ₁)
              | some ev =>
                  if isNada catchB then (.error (.zisk k msg el ec), σ₁)
                  else
                    let σ₂ := enterScope σ₁
                    (match declareVariable σ₂ ev (.verr (ziskClassName k) msg) (some "objeto") false 0 0 with
                     | .error e₂ => (.error e₂, σ₂)
                     | .ok σ₃ =>
                         match execute catchB σ₃ with
                         | (o, σ₄) => (o, exitScope σ₄))
          | .py nm pmsg =>
              match errVar with
              | none =>
                  (.error (.zisk .runtime
                    ("Error no capturado: " ++ nm ++ ": " ++ pmsg) 0 0), σ₁)
              | some ev =>
                  if isNada catchB then
                    (.error (.zisk .runtime
                      ("Error no capturado: " ++ nm ++ ": " ++ pmsg) 0 0), σ₁)
                  else
                    let σ₂ := enterScope σ₁
                    (match declareVariable σ₂ ev
                        (.verr "ZiskRuntimeError" ("Excepción Python: " ++ nm ++ ": " ++ pmsg))
                        (some "objeto") false 0 0 with
                     | .error e₂ => (.error e₂, σ₂)
                     | .ok σ₃ =>
                         match execute catchB σ₃ with
                         | (o, σ₄) => (o, exitScope σ₄))
      if isNada finallyB then afterBody
      else
        match execute finallyB afterBody.2 with
        | (.ok _, σf) => (afterBody.1, σf)
        | (.error ef, σf) => (.error ef, σf)) := rfl

theorem execute_asignacion_def (op : AssignOp) (lhs rhs : AST) (σ : EvalState) :
    execute (.asignacion op lhs rhs) σ =
      match execute rhs σ with
      | (.error e, σ₁) => (.error e, σ₁)
      | (.ok rhsVal, σ₁) =>
        match getLvalueLocation lhs σ₁ with
        | (.error e, σ₂) => (.error e, σ₂)
        | (.ok loc, σ₂) =>
            let curRes : Except Exc CurVal :=
              if op == .assign then .ok (.ofValue .vnone)
              else readCurrent σ₂ loc (assignOpStr op) (nodeTypeName lhs)
            match curRes with
            | .error e => (.error e, σ₂)
            | .ok cur =>
                match compoundCombine σ₂ op cur rhsVal with
                | (.error e, σ₃) => (.error e, σ₃)
                | (.ok finalVal, σ₃) => assignWrite σ₃ loc op finalVal := rfl

theorem getLvalueLocation_accesoIndice_def (collNode idxNode : AST) (σ : EvalState) :
    getLvalueLocation (.accesoIndice collNode idxNode) σ =
      match execute collNode σ with
      | (.error e, σ₁) => (.error e, σ₁)
      | (.ok coll, σ₁) =>
        match execute idxNode σ₁ with
        | (.error e, σ₂) => (.error e, σ₂)
        | (.ok idxVal, σ₂) =>
            match coll with
            | .vlist addr =>
                if isInstInt idxVal then (.ok (.listElem addr idxVal), σ₂)
                else (.error (.zisk .typeErr "El índice de la lista debe ser un entero." 0 0), σ₂)
            | .vdict addr => (.ok (.dictElem addr (pyStr idxVal)), σ₂)
            | _ =>
                (.error (.zisk .typeErr
                  "Solo se puede usar acceso por índice '[]' en listas o diccionarios." 0 0), σ₂)
      := rfl

theorem toPyNum_numToValue (n : PyNum) : toPyNum (numToValue n) = some n := by
  cases n <;> rfl

theorem isNumericVal_numToValue (n : PyNum) : isNumericVal (numToValue n) = true := by
  cases n <;> rfl

theorem pyEqZero_numToValue (n : PyNum) : pyEqZero (numToValue n) = numIsZero n := by
  cases n <;> rfl

/-- Constant folding of a pure arithmetic expression agrees with
execution: when the optimizer succeeds it produces the literal the
evaluator would compute, leaving the state untouched. -/
theorem optimize_pureArith (e : AST) (he : PureArith e) :
    ∀ e', optimize e = .ok e' →
      ∃ n, e' = .numero n ∧ ∀ σ, execute e σ = (.ok (numToValue n), σ) := by
  induction he with
  | num n =>
      intro e' hopt
      simp only [optimize, Except.ok.injEq] at hopt
      exact ⟨n, hopt.symm, fun σ => rfl⟩
  | bin op l r hop hl hr ihl ihr =>
      intro e' hopt
      simp only [optimize] at hopt
      cases hOl : optimize l with
      | error ex => rw [hOl] at hopt; simp at hopt
      | ok l' =>
        cases hOr : optimize r with
        | error ex => rw [hOl, hOr] at hopt; simp at hopt
        | ok r' =>
          rw [hOl, hOr] at hopt
          obtain ⟨nl, rfl, hexl⟩ := ihl l' hOl
          obtain ⟨nr, rfl, hexr⟩ := ihr r' hOr
          have hexec : ∀ σ, execute (.opAritmetica op l r) σ =
              arithApply σ op (numToValue nl) (numToValue nr) := by
            intro σ
            simp only [execute_opAritmetica_def, hexl, hexr,
              isNumericVal_numToValue, Bool.and_self, ite_true]
          cases op with
          | add =>
              simp only [foldArith, Except.ok.injEq] at hopt
              subst hopt
              refine ⟨numAdd nl nr, rfl, fun σ => ?_⟩
              rw [hexec σ]
              simp only [arithApply, pyAddRaw, toPyNum_numToValue]
          | sub =>
              simp only [foldArith, Except.ok.injEq] at hopt
              subst hopt
              refine ⟨numSub nl nr, rfl, fun σ => ?_⟩
              rw [hexec σ]
              simp only [arithApply, pySubRaw, toPyNum_numToValue]
          | mul =>
              simp only [foldArith, Except.ok.injEq] at hopt
              subst hopt
              refine ⟨numMul nl nr, rfl, fun σ => ?_⟩
              rw [hexec σ]
              simp only [arithApply, pyMulRaw, toPyNum_numToValue]
          | div =>
              simp only [foldArith] at hopt
              cases hz : numIsZero nr with
              | true => rw [hz] at hopt; simp at hopt
              | false =>
                  rw [hz] at hopt
                  simp only [Bool.false_eq_true, ite_false, Except.ok.injEq] at hopt
                  subst hopt
                  refine ⟨numDiv nl nr, rfl, fun σ => ?_⟩
                  rw [hexec σ]
                  simp only [arithApply, pyEqZero_numToValue, hz, Bool.false_eq_true,
                    ite_false, pyDivRaw, toPyNum_numToValue]
          | mod => exact absurd rfl hop

/-- Unfolding lemma for one successor-fuel step of the variable
declaration parser. -/
theorem parse_declaracion_variable_succ (fuel : Nat) (st : PState) :
    parse_declaracion_variable (fuel + 1) st =
      match consume st (some "VAR") none with
      | .error e => .error e
      | .ok (_, st₁) =>
          match consume st₁ (some "IDENTIFICADOR") none with
          | .error e => .error e
          | .ok (nombreTok, st₂) =>
              let nombre := nombreTok.val
              if !validLowerName nombre then
                .error (.perr "Nombre de variable debe usar camelCase o snake_case comenzando con minúscula." nombreTok.line nombreTok.col)
              else if variable_declared_in_current_scope st₂ nombre then
                .error (.perr ("Variable '" ++ nombre ++ "' ya declarada en este ámbito.") nombreTok.line nombreTok.col)
              else
                match parse_tipo_opcional st₂ with
                | .error e => .error e
                | .ok (tipo, st₃) =>
                    match currentToken st₃ with
                    | some t =>
                        if t.kind == "OPERADOR" && t.val == "=" then
                          match consume st₃ (some "OPERADOR") (some "=") with
                          | .error e => .error e
                          | .ok (_, st₄) =>
                              match parse_expresion fuel st₄ with
                              | .error e => .error e
                              | .ok (valor, st₅) =>
                                  let st₆ := pDeclare st₅ nombre ("VAR", tipo)
                                  .ok (.declaracionVar nombre tipo (some valor),
                                       consumeOptionalSemicolon st₆)
                        else
                          let st₄ := pDeclare st₃ nombre ("VAR", tipo)
                          .ok (.declaracionVar nombre tipo none, consumeOptionalSemicolon st₄)
                    | none =>
                        let st₄ := pDeclare st₃ nombre ("VAR", tipo)
                        .ok (.declaracionVar nombre tipo none, consumeOptionalSemicolon st₄) := rfl

/-- Unfolding lemma for one successor-fuel step of the constant
declaration parser. -/
theorem parse_declaracion_constante_succ (fuel : Nat) (st : PState) :
    parse_declaracion_constante (fuel + 1) st =
      match consume st (some "CONST") none with
      | .error e => .error e
      | .ok (_, st₁) =>
          match consume st₁ (some "IDENTIFICADOR") none with
          | .error e => .error e
          | .ok (nombreTok, st₂) =>
              let nombre := nombreTok.val
              if !validUpperName nombre then
                .error (.perr "Nombre de constante debe usar MAYUSCULAS_CON_GUIONES_BAJOS." nombreTok.line nombreTok.col)
              else if variable_declared_in_current_scope st₂ nombre then
                .error (.perr ("Constante '" ++ nombre ++ "' ya declarada en este ámbito.") nombreTok.line nombreTok.col)
              else
                match parse_tipo_opcional st₂ with
                | .error e => .error e
                | .ok (tipo, st₃) =>
                    match consume st₃ (some "OPERADOR") (some "=") with
                    | .error e => .error e
                    | .ok (_, st₄) =>
                        match parse_expresion fuel st₄ with
                        | .error e => .error e
                        | .ok (valor, st₅) =>
                            let st₆ := pDeclare st₅ nombre ("CONST", tipo)
                            .ok (.declaracionConst nombre tipo (some valor),
                                 consumeOptionalSemicolon st₆) := rfl

-- The claims.

/-- Claim C1, counterexample: with `B` declared as extending `A`, the
type check of a `B` instance against declared type `A` returns false and
`validate_assignment` raises the ZiskTypeError, contradicting the claim
that the assignment passes. -/
theorem C1_counterexample :
    hierAB.class_hierarchy = [("A", none), ("B", some "A")] ∧
    check_type hierAB (.vinst "B") "A" = false ∧
    validate_assignment hierAB "obj" (.vinst "B") (some "A") 0 0 false =
      .error (.zisk .typeErr
        "Tipos incompatibles: no se puede asignar valor de tipo 'B' a 'obj' de tipo 'A'." 0 0) :=
  ⟨rfl, rfl, rfl⟩

/-- Claim C1 (corrected): for an expected type name in the class
hierarchy (and not a builtin or `nulo`), a type check of an instance
succeeds exactly when the instance's runtime class name equals the
expected name; an instance of any other class — including a subclass,
since the ancestor walk of check_type breaks before consulting a parent
(line 993) — fails check_type and makes validate_assignment raise the
ZiskTypeError. -/
theorem C1_exact_name_match_only (ts : TypeSystem) (ctx A C : String) (l c : Nat)
    (hA0 : A ≠ "nulo") (hA : hierHas ts A = true) (hmap : typeMapHas A = false)
    (hCA : C ≠ A) :
    (check_type ts (.vinst A) A = true ∧
     validate_assignment ts ctx (.vinst A) (some A) l c false = .ok ()) ∧
    (check_type ts (.vinst C) A = false ∧
     validate_assignment ts ctx (.vinst C) (some A) l c false =
       .error (.zisk .typeErr ("Tipos incompatibles: no se puede asignar valor de tipo '" ++
         infer_type ts (.vinst C) ++ "' a '" ++ ctx ++ "' de tipo '" ++ A ++ "'.") l c)) := by
  have hA0b : (A == "nulo") = false := by simp [hA0]
  have hCAb : (C == A) = false := by simp [hCA]
  refine ⟨⟨?_, ?_⟩, ?_, ?_⟩
  · simp [check_type, hA0b, hA, className]
  · simp [validate_assignment, check_type, hA0b, hA, className]
  · simp [check_type, hA0b, hA, hmap, hCAb, className]
  · simp [validate_assignment, check_type, hA0b, hA, hmap, hCAb, className]

/-- Witness for claim C1 at the concrete hierarchy `B extends A`. -/
theorem C1_witness :
    (check_type hierAB (.vinst "A") "A" = true ∧
     validate_assignment hierAB "obj" (.vinst "A") (some "A") 0 0 false = .ok ()) ∧
    (check_type hierAB (.vinst "B") "A" = false ∧
     validate_assignment hierAB "obj" (.vinst "B") (some "A") 0 0 false =
       .error (.zisk .typeErr
         "Tipos incompatibles: no se puede asignar valor de tipo 'B' a 'obj' de tipo 'A'." 0 0)) :=
  C1_exact_name_match_only hierAB "obj" "A" "B" 0 0 (by decide) rfl rfl (by decide)

/-- Claim C2, code bug: `const X = 1; X = 2;` succeeds. The declaration
creates the binding with the const flag set, but the ASIGNACION branch of
execute writes through the scope directly (the const-checking
`_assign_variable` at lines 1787-1799 is never called), so the
reassignment overwrites the value and even clears the const flag,
returning 2. -/
theorem C2_const_reassignment_succeeds :
    execute (.declaracionConst "X" none (some (.numero (.pint 1)))) initState =
      (.ok (.vint 1),
       { initState with scopes := [[("X", ⟨.vint 1, true, "entero"⟩)]] }) ∧
    execute (.programa [.declaracionConst "X" none (some (.numero (.pint 1))),
        .asignacion .assign (.identificador "X") (.numero (.pint 2))]) initState =
      (.ok (.vint 2),
       { initState with scopes := [[("X", ⟨.vint 2, false, "entero"⟩)]] }) :=
  ⟨rfl, rfl⟩

/-- Claim C3 (confirmed): for every expression built solely from numeric
literals and the binary operators `+ - * /`, executing the AST produced
by the optimizer yields the same result and state as executing the
unoptimized AST. (When the optimizer itself raises — the div-by-zero
fold, lines 1670-1676 — no optimized AST is produced, so there is
nothing to compare.) -/
theorem C3_constant_folding_equivalence (e e' : AST) (hp : PureArith e)
    (hopt : optimize e = .ok e') (σ : EvalState) :
    execute e' σ = execute e σ := by
  obtain ⟨n, rfl, hexec⟩ := optimize_pureArith e hp e' hopt
  rw [hexec σ]
  rfl

/-- Witness for claim C3: `2 + 3 * 4` folds to the literal 14 and
evaluates identically. -/
theorem C3_witness :
    optimize (AST.opAritmetica .add (.numero (.pint 2))
        (.opAritmetica .mul (.numero (.pint 3)) (.numero (.pint 4)))) =
      .ok (.numero (.pint 14)) ∧
    execute (AST.numero (.pint 14)) initState =
      execute (AST.opAritmetica .add (.numero (.pint 2))
        (.opAritmetica .mul (.numero (.pint 3)) (.numero (.pint 4)))) initState :=
  ⟨rfl,
   C3_constant_folding_equivalence
     (.opAritmetica .add (.numero (.pint 2))
       (.opAritmetica .mul (.numero (.pint 3)) (.numero (.pint 4))))
     (.numero (.pint 14))
     (.bin .add (.numero (.pint 2)) (.opAritmetica .mul (.numero (.pint 3)) (.numero (.pint 4)))
       (by decide) (.num (.pint 2))
       (.bin .mul (.numero (.pint 3)) (.numero (.pint 4)) (by decide)
         (.num (.pint 3)) (.num (.pint 4))))
     rfl initState⟩

/-- Claim C4 (confirmed): when the try block of a try/catch/finally
raises a return, break or continue control-transfer event, the catch
block is bypassed entirely (the event and state pass through untouched),
and a present finally block runs before the event continues to
propagate. -/
theorem C4_control_transfer_bypasses_catch (t catchB : AST) (errVar : Option String)
    (σ σ₁ : EvalState) (e : Exc)
    (hctrl : isCtrlEvent e = true)
    (h : execute t σ = (.error e, σ₁)) :
    execute (.tryCatch t errVar catchB .nada) σ = (.error e, σ₁) ∧
    (∀ (fb : AST) (vf : Value) (σ₂ : EvalState),
      isNada fb = false → execute fb σ₁ = (.ok vf, σ₂) →
      execute (.tryCatch t errVar catchB fb) σ = (.error e, σ₂)) := by
  constructor
  · rw [execute_tryCatch_def, h]
    cases e <;> simp [isCtrlEvent] at hctrl <;> simp [isNada]
  · intro fb vf σ₂ hnf h2
    rw [execute_tryCatch_def, h]
    cases e <;> simp [isCtrlEvent] at hctrl <;> simp [hnf, h2]

/-- Witness for claim C4: a `break` inside a loop propagates through a
try/catch with and without a finally block. -/
theorem C4_witness :
    execute (.tryCatch (.brkStmt 1 1) (some "e") (.bloque []) .nada)
        { initState with is_in_loop := 1 } =
      (.error .brk, { initState with is_in_loop := 1 }) ∧
    execute (.tryCatch (.brkStmt 1 1) (some "e") (.bloque []) (.cadena "f"))
        { initState with is_in_loop := 1 } =
      (.error .brk, { initState with is_in_loop := 1 }) := by
  have h := C4_control_transfer_bypasses_catch (.brkStmt 1 1) (.bloque []) (some "e")
    { initState with is_in_loop := 1 } { initState with is_in_loop := 1 } .brk rfl rfl
  exact ⟨h.1, h.2 (.cadena "f") (.vstr "f") { initState with is_in_loop := 1 } rfl rfl⟩

/-- Claim C5, code bug: division and modulo by zero do raise the
ZiskRuntimeError before any write (the compound `x /= 0` leaves `x` at
its previous value), but the error is not handleable: entering the catch
block binds the error object to the catch variable with declared type
`objeto`, and that declaration's validate_assignment rejects the
ZiskError value (infer_type reports `desconocido`), so the handler is
replaced by a propagating ZiskTypeError and the entered scope is never
popped. -/
theorem C5_div_zero_error_uncatchable :
    execute (.opAritmetica .div (.numero (.pint 5)) (.numero (.pint 0))) initState =
      (.error (.zisk .runtime "División por cero." 0 0), initState) ∧
    execute (.opAritmetica .mod (.numero (.pint 5)) (.numero (.pint 0))) initState =
      (.error (.zisk .runtime "Módulo por cero." 0 0), initState) ∧
    execute (.programa [.declaracionVar "x" none (some (.numero (.pint 7))),
        .asignacion .divA (.identificador "x") (.numero (.pint 0))]) initState =
      (.error (.zisk .runtime "División por cero en asignación." 0 0),
       { initState with scopes := [[("x", ⟨.vint 7, false, "entero"⟩)]] }) ∧
    execute (.tryCatch (.bloque [.opAritmetica .div (.numero (.pint 5)) (.numero (.pint 0))])
        (some "e") (.bloque []) .nada) initState =
      (.error (.zisk .typeErr
        "Tipos incompatibles: no se puede asignar valor de tipo 'desconocido' a 'e' de tipo 'objeto'." 0 0),
       { initState with scopes := [[], []] }) :=
  ⟨rfl, rfl, rfl, rfl⟩

/-- Claim C6 (confirmed): declaring a variable (or constant) whose name
is already present in the innermost parse-time scope is rejected with the
redeclaration ParseError at the second declaration's name token, for any
state of the outer scopes; a declaration whose name is absent from the
innermost scope is accepted, so `var x = 1; { var x = 2; }` parses while
`var x = 1; var x = 2;` does not. -/
theorem C6_innermost_redeclaration_vs_shadowing :
    (∀ (fuel : Nat) (st : PState) (name : String) (lv cv l c : Nat) (rest : List Token),
      st.toks = ⟨"VAR", "var", lv, cv⟩ :: ⟨"IDENTIFICADOR", name, l, c⟩ :: rest →
      validLowerName name = true →
      variable_declared_in_current_scope st name = true →
      parse_declaracion_variable (fuel + 1) st =
        .error (.perr ("Variable '" ++ name ++ "' ya declarada en este ámbito.") l c)) ∧
    (∀ (fuel : Nat) (st : PState) (name : String) (lv cv l c : Nat) (rest : List Token),
      st.toks = ⟨"CONST", "const", lv, cv⟩ :: ⟨"IDENTIFICADOR", name, l, c⟩ :: rest →
      validUpperName name = true →
      variable_declared_in_current_scope st name = true →
      parse_declaracion_constante (fuel + 1) st =
        .error (.perr ("Constante '" ++ name ++ "' ya declarada en este ámbito.") l c)) ∧
    (∀ (st : PState) (name : String) (lv cv l c l2 c2 l3 c3 l4 c4 : Nat) (rest : List Token),
      st.toks = ⟨"VAR", "var", lv, cv⟩ :: ⟨"IDENTIFICADOR", name, l, c⟩ ::
        ⟨"OPERADOR", "=", l2, c2⟩ :: ⟨"NUMERO", "1", l3, c3⟩ ::
        ⟨"PUNTO_COMA", ";", l4, c4⟩ :: rest →
      validLowerName name = true →
      variable_declared_in_current_scope st name = false →
      parse_declaracion_variable 50 st =
        .ok (.declaracionVar name none (some (.numero (.pint 1))),
             { st with toks := rest,
                       scopes := st.scopes.set 0
                         (assocSet (st.scopes.headD []) name ("VAR", none)) })) ∧
    parse 50 c6SameScopeToks =
      .error (.perr "Variable 'x' ya declarada en este ámbito." 1 16) ∧
    parse 50 c6NestedToks =
      .ok (.programa [ .declaracionVar "x" none (some (.numero (.pint 1)))
                     , .bloque [.declaracionVar "x" none (some (.numero (.pint 2)))] ]) := by
  refine ⟨?_, ?_, ?_, rfl, rfl⟩
  · intro fuel st name lv cv l c rest htoks hvalid hdecl
    have hdecl2 : variable_declared_in_current_scope
        { toks := rest, lastTok := st.lastTok, scopes := st.scopes } name = true := hdecl
    rw [parse_declaracion_variable_succ]
    simp [consume, currentToken, advanceTok, htoks, hvalid, hdecl2]
  · intro fuel st name lv cv l c rest htoks hvalid hdecl
    have hdecl2 : variable_declared_in_current_scope
        { toks := rest, lastTok := st.lastTok, scopes := st.scopes } name = true := hdecl
    rw [parse_declaracion_constante_succ]
    simp [consume, currentToken, advanceTok, htoks, hvalid, hdecl2]
  · intro st name lv cv l c l2 c2 l3 c3 l4 c4 rest htoks hvalid hdecl
    have hdecl2 : variable_declared_in_current_scope
        { toks := ({ kind := "OPERADOR", val := "=", line := l2, col := c2 } : Token) ::
                   ({ kind := "NUMERO", val := "1", line := l3, col := c3 } : Token) ::
                   ({ kind := "PUNTO_COMA", val := ";", line := l4, col := c4 } : Token) :: rest,
          lastTok := st.lastTok, scopes := st.scopes } name = false := hdecl
    show parse_declaracion_variable (49 + 1) st = _
    rw [parse_declaracion_variable_succ]
    simp [hdecl2, parse_tipo_opcional, currentToken, consume, advanceTok, htoks, hvalid,
      parse_expresion, parse_expresion_asignacion, parse_expresion_logica_o,
      parse_logica_o_loop, parse_expresion_logica_y, parse_logica_y_loop,
      parse_expresion_comparacion, parse_expresion_adicion, parse_adicion_loop,
      parse_expresion_multiplicacion, parse_multiplicacion_loop,
      parse_expresion_unaria, parse_expresion_llamada_o_acceso, parse_sufijos,
      parse_expresion_primaria, strToPyNum, digitsVal, stripQuotes,
      pDeclare, consumeOptionalSemicolon]

/-- Witness for claim C6 at concrete states: redeclaration of `x` and of
constant `MAX` in the innermost scope errors; shadowing an outer `y` is
accepted and records the new declaration. -/
theorem C6_witness :
    parse_declaracion_variable 1
      ⟨[⟨"VAR","var",1,1⟩, ⟨"IDENTIFICADOR","x",1,5⟩], none, [[("x", ("VAR", none))]]⟩ =
      .error (.perr "Variable 'x' ya declarada en este ámbito." 1 5) ∧
    parse_declaracion_constante 1
      ⟨[⟨"CONST","const",1,1⟩, ⟨"IDENTIFICADOR","MAX",1,7⟩], none, [[("MAX", ("CONST", none))]]⟩ =
      .error (.perr "Constante 'MAX' ya declarada en este ámbito." 1 7) ∧
    parse_declaracion_variable 50
      ⟨[⟨"VAR","var",1,1⟩, ⟨"IDENTIFICADOR","y",1,5⟩, ⟨"OPERADOR","=",1,7⟩,
        ⟨"NUMERO","1",1,9⟩, ⟨"PUNTO_COMA",";",1,10⟩], none, [[], [("y", ("VAR", none))]]⟩ =
      .ok (.declaracionVar "y" none (some (.numero (.pint 1))),
           ⟨[], none, [[("y", ("VAR", none))], [("y", ("VAR", none))]]⟩) :=
  ⟨C6_innermost_redeclaration_vs_shadowing.1 0 _ "x" 1 1 1 5 [] rfl rfl rfl,
   C6_innermost_redeclaration_vs_shadowing.2.1 0 _ "MAX" 1 1 1 7 [] rfl rfl rfl,
   C6_innermost_redeclaration_vs_shadowing.2.2.1 _ "y" 1 1 1 5 1 7 1 9 1 10 [] rfl rfl rfl⟩

/-- Claim C7 (confirmed): for an assignment whose target is an index
access on a list, a non-integer index raises an error; a simple
assignment at index exactly the current length appends; any other index
outside `[0, length)` raises a ZiskRuntimeError with the list unchanged;
an in-range index replaces the element at that position. -/
theorem C7_list_index_assignment (op : AssignOp) (collE idxE rhsE : AST)
    (σ σ₁ σ₂ σ₃ : EvalState) (a : Nat) (iv rv : Value) (xs : List Value)
    (hrhs : execute rhsE σ = (.ok rv, σ₁))
    (hcoll : execute collE σ₁ = (.ok (.vlist a), σ₂))
    (hidx : execute idxE σ₂ = (.ok iv, σ₃))
    (hheap : σ₃.listHeap.getD a [] = xs) :
    ((∀ z : Int, iv ≠ .vint z) →
      ∃ e, execute (.asignacion op (.accesoIndice collE idxE) rhsE) σ = (.error e, σ₃)) ∧
    (iv = .vint (xs.length : Int) → op = .assign →
      execute (.asignacion op (.accesoIndice collE idxE) rhsE) σ =
        (.ok rv, { σ₃ with listHeap := σ₃.listHeap.set a (xs ++ [rv]) })) ∧
    (∀ z : Int, iv = .vint z → ¬(0 ≤ z ∧ z < (xs.length : Int)) →
      ¬(z = (xs.length : Int) ∧ op = .assign) →
      ∃ m, execute (.asignacion op (.accesoIndice collE idxE) rhsE) σ =
        (.error (.zisk .runtime m 0 0), σ₃)) ∧
    (∀ z : Int, iv = .vint z → op = .assign → 0 ≤ z → z < (xs.length : Int) →
      execute (.asignacion op (.accesoIndice collE idxE) rhsE) σ =
        (.ok rv, { σ₃ with listHeap := σ₃.listHeap.set a (xs.set z.toNat rv) })) := by
  simp only [execute_asignacion_def, hrhs, getLvalueLocation_accesoIndice_def, hcoll, hidx]
  refine ⟨fun hni => ?_, fun hlen hop => ?_, fun z hz hnin hnapp => ?_, fun z hz hop h0 hlt => ?_⟩
  · cases iv with
    | vint z => exact absurd rfl (hni z)
    | vbool b => cases op <;> exact ⟨_, rfl⟩
    | vnone => exact ⟨_, rfl⟩
    | vfloat q => exact ⟨_, rfl⟩
    | vstr s => exact ⟨_, rfl⟩
    | vlist a2 => exact ⟨_, rfl⟩
    | vdict a2 => exact ⟨_, rfl⟩
    | vfunc n => exact ⟨_, rfl⟩
    | vclass n => exact ⟨_, rfl⟩
    | vinst c => exact ⟨_, rfl⟩
    | verr c m => exact ⟨_, rfl⟩
    | vtuple => exact ⟨_, rfl⟩
  · subst hlen hop
    have h1 : (0 ≤ (xs.length : Int) && (xs.length : Int) < (xs.length : Int)) = false := by
      simp
    have h2 : ((xs.length : Int) == (xs.length : Int) && AssignOp.assign == AssignOp.assign) = true := by
      simp
    simp only [isInstInt, ite_true, compoundCombine, assignWrite, intOfKey, hheap, h1, h2,
      Bool.false_eq_true, ite_false]
    rfl
  · subst hz
    have hbounds : (0 ≤ z && z < (xs.length : Int)) = false := by
      simp only [Bool.and_eq_false_iff, decide_eq_false_iff_not]
      omega
    cases op with
    | assign =>
        have happ : (z == (xs.length : Int) && AssignOp.assign == AssignOp.assign) = false := by
          have hzz : z ≠ (xs.length : Int) := fun hzz => hnapp ⟨hzz, rfl⟩
          simp [hzz]
        simp only [isInstInt, ite_true, compoundCombine, assignWrite, intOfKey, hheap, hbounds,
          happ, Bool.false_eq_true, ite_false]
        exact ⟨_, rfl⟩
    | addA =>
        simp only [isInstInt, ite_true, readCurrent, intOfKey, hheap, hbounds,
          Bool.false_eq_true, ite_false]
        exact ⟨_, rfl⟩
    | subA =>
        simp only [isInstInt, ite_true, readCurrent, intOfKey, hheap, hbounds,
          Bool.false_eq_true, ite_false]
        exact ⟨_, rfl⟩
    | mulA =>
        simp only [isInstInt, ite_true, readCurrent, intOfKey, hheap, hbounds,
          Bool.false_eq_true, ite_false]
        exact ⟨_, rfl⟩
    | divA =>
        simp only [isInstInt, ite_true, readCurrent, intOfKey, hheap, hbounds,
          Bool.false_eq_true, ite_false]
        exact ⟨_, rfl⟩
    | modA =>
        simp only [isInstInt, ite_true, readCurrent, intOfKey, hheap, hbounds,
          Bool.false_eq_true, ite_false]
        exact ⟨_, rfl⟩
  · subst hz hop
    have hb : (0 ≤ z && z < (xs.length : Int)) = true := by
      simp only [Bool.and_eq_true, decide_eq_true_eq]
      omega
    simp only [isInstInt, ite_true, compoundCombine, assignWrite, intOfKey, hheap, hb]
    rfl

/-- Witness for claim C7: in-range replacement and append-at-length on
the literal list `[10, 20]`. -/
theorem C7_witness :
    execute (.asignacion .assign
        (.accesoIndice (.listaLiteral [.numero (.pint 10), .numero (.pint 20)])
          (.numero (.pint 1)))
        (.numero (.pint 99))) initState =
      (.ok (.vint 99), { initState with listHeap := [[.vint 10, .vint 99]] }) ∧
    execute (.asignacion .assign
        (.accesoIndice (.listaLiteral [.numero (.pint 10), .numero (.pint 20)])
          (.numero (.pint 2)))
        (.numero (.pint 99))) initState =
      (.ok (.vint 99), { initState with listHeap := [[.vint 10, .vint 20, .vint 99]] }) := by
  have h1 := (C7_list_index_assignment .assign
      (.listaLiteral [.numero (.pint 10), .numero (.pint 20)]) (.numero (.pint 1))
      (.numero (.pint 99)) initState initState
      { initState with listHeap := [[.vint 10, .vint 20]] }
      { initState with listHeap := [[.vint 10, .vint 20]] } 0 (.vint 1) (.vint 99)
      [.vint 10, .vint 20] rfl rfl rfl rfl).2.2.2 1 rfl rfl (by decide) (by decide)
  have h2 := (C7_list_index_assignment .assign
      (.listaLiteral [.numero (.pint 10), .numero (.pint 20)]) (.numero (.pint 2))
      (.numero (.pint 99)) initState initState
      { initState with listHeap := [[.vint 10, .vint 20]] }
      { initState with listHeap := [[.vint 10, .vint 20]] } 0 (.vint 2) (.vint 99)
      [.vint 10, .vint 20] rfl rfl rfl rfl).2.1 rfl rfl
  exact ⟨h1, h2⟩

/-- Claim C8 (confirmed): validate_assignment never raises when the
assigned value is null, whatever the declared type, context and position:
the `valor is None` test short-circuits the check for every expected
type. -/
theorem C8_null_always_assignable (ts : TypeSystem) (ctx : String)
    (expected : Option String) (linea col : Nat) (is_return : Bool) :
    validate_assignment ts ctx .vnone expected linea col is_return = .ok () := by
  cases expected <;> simp [validate_assignment]

/-- Claim C9, counterexample: `0 && 1` yields the boolean `false`, not
the left operand's value `0`, so the claim's clause that the overall
result equals the result of evaluating the left operand alone is wrong
(the short-circuit returns a fresh boolean). -/
theorem C9_counterexample :
    execute (.opLogica .land (.numero (.pint 0)) (.numero (.pint 1))) initState =
      (.ok (.vbool false), initState) ∧
    execute (.numero (.pint 0)) initState = (.ok (.vint 0), initState) ∧
    Value.vbool false ≠ Value.vint 0 :=
  ⟨rfl, rfl, by decide⟩

/-- Claim C9 (corrected): when the left operand of `&&` is falsy the
whole expression yields the boolean `false` in the left operand's
post-state, and when the left operand of `||` is truthy it yields the
boolean `true` in the left operand's post-state — the right operand is
never evaluated (the result does not depend on it and the state is the
left operand's), but the value produced is a fresh boolean rather than
the left operand's value. -/
theorem C9_amended_short_circuit (lhs rhs : AST) (σ σ' : EvalState) (v : Value)
    (h : execute lhs σ = (.ok v, σ')) :
    (truthy σ' v = false →
      execute (.opLogica .land lhs rhs) σ = (.ok (.vbool false), σ')) ∧
    (truthy σ' v = true →
      execute (.opLogica .lor lhs rhs) σ = (.ok (.vbool true), σ')) := by
  refine ⟨fun ht => ?_, fun ht => ?_⟩
  · rw [execute_land_def, h]; simp only [ht]; rfl
  · rw [execute_lor_def, h]; simp only [ht]; rfl

/-- Witness for claim C9: `false && 7` short-circuits to `false`. -/
theorem C9_witness :
    execute (.opLogica .land (.booleano false) (.numero (.pint 7))) initState =
      (.ok (.vbool false), initState) := by
  have h := C9_amended_short_circuit (.booleano false) (.numero (.pint 7))
    initState initState (.vbool false) rfl
  exact h.1 rfl

/-- Claim C10 (confirmed): the logical operators are asymmetric in what
they return — `lhs && rhs` returns the boolean `false` when `lhs` is
falsy but the right operand's uncoerced value when `lhs` is truthy, and
`lhs || rhs` returns the boolean `true` when `lhs` is truthy but the
right operand's uncoerced value when `lhs` is falsy. -/
theorem C10_logical_operator_result_asymmetry (lhs rhs : AST) (σ σ' : EvalState) (v : Value)
    (h : execute lhs σ = (.ok v, σ')) :
    (truthy σ' v = false →
      execute (.opLogica .land lhs rhs) σ = (.ok (.vbool false), σ')) ∧
    (truthy σ' v = true → ∀ (w : Value) (σ'' : EvalState), execute rhs σ' = (.ok w, σ'') →
      execute (.opLogica .land lhs rhs) σ = (.ok w, σ'')) ∧
    (truthy σ' v = true →
      execute (.opLogica .lor lhs rhs) σ = (.ok (.vbool true), σ')) ∧
    (truthy σ' v = false → ∀ (w : Value) (σ'' : EvalState), execute rhs σ' = (.ok w, σ'') →
      execute (.opLogica .lor lhs rhs) σ = (.ok w, σ'')) := by
  refine ⟨fun ht => ?_, fun ht w σ'' h2 => ?_, fun ht => ?_, fun ht w σ'' h2 => ?_⟩
  · rw [execute_land_def, h]; simp only [ht]; rfl
  · rw [execute_land_def, h]; simp [ht, h2]
  · rw [execute_lor_def, h]; simp only [ht]; rfl
  · rw [execute_lor_def, h]; simp [ht, h2]

/-- Witness for claim C10: `1 && "ab"` yields the string `"ab"` while
`1 || "ab"` yields the boolean `true`. -/
theorem C10_witness :
    execute (.opLogica .land (.numero (.pint 1)) (.cadena "ab")) initState =
      (.ok (.vstr "ab"), initState) ∧
    execute (.opLogica .lor (.numero (.pint 1)) (.cadena "ab")) initState =
      (.ok (.vbool true), initState) := by
  have h := C10_logical_operator_result_asymmetry (.numero (.pint 1)) (.cadena "ab")
    initState initState (.vint 1) rfl
  exact ⟨h.2.1 rfl (.vstr "ab") initState rfl, h.2.2.1 rfl⟩

end Zisk
